import Mathlib

/-!
# MRCP stream parser and generator (libs/mrcp/control/src/mrcp_stream.c)

A shallow embedding of `mrcp_stream.c`.  Memory is modelled by byte lists, a
`char*` into the stream buffer by an optional offset from `text.buf`
(`none` is `NULL`), and undefined behaviour of the C code (a `NULL`
dereference, a `memcpy` outside an allocated region) by the result `none`.
The tokenizers, the resource factory and the message validation live in other
translation units; they are the fields of `mrcp_externals_t`.
-/

namespace Mrcp

/-! ## Data model -/

/-- Result of one parser or generator run (`mrcp_stream_result_e`). -/
inductive mrcp_stream_result_e where
  | MRCP_STREAM_MESSAGE_COMPLETE
  | MRCP_STREAM_MESSAGE_TRUNCATED
  | MRCP_STREAM_MESSAGE_INVALID
  deriving DecidableEq, Repr

open mrcp_stream_result_e

/-- Counted string `apt_str_t`: `buf` is the memory region the pointer designates
(`none` for `NULL`), `length` the number of bytes in use. -/
structure apt_str_t where
  buf : Option (List Nat)
  length : Nat
  deriving DecidableEq, Repr

/-- Reset of a counted string (`apt_string_reset`): `NULL` buffer, length zero. -/
def apt_string_reset : apt_str_t :=
  { buf := none, length := 0 }

/-- Text stream `apt_text_stream_t`: `buf` is the memory at `text.buf`, `length`
is `text.length`, and `pos` is the cursor as an offset from `text.buf`
(`none` for a `NULL` cursor). -/
structure apt_text_stream_t where
  buf : List Nat
  length : Nat
  pos : Option Nat
  deriving DecidableEq, Repr

/-- Protocol version (`mrcp_version_e`). -/
inductive mrcp_version_e where
  | MRCP_VERSION_UNKNOWN
  | MRCP_VERSION_1
  | MRCP_VERSION_2
  deriving DecidableEq, Repr

open mrcp_version_e

/-- Message type (`mrcp_message_type_e`). -/
inductive mrcp_message_type_e where
  | MRCP_MESSAGE_TYPE_UNKNOWN
  | MRCP_MESSAGE_TYPE_REQUEST
  | MRCP_MESSAGE_TYPE_RESPONSE
  | MRCP_MESSAGE_TYPE_EVENT
  deriving DecidableEq, Repr

/-- Modelled from the spec: the declaration of `mrcp_start_line_t` (mrcp_message.h)
is not among the sources.  Request, response and event share one record, told
apart by `message_type`; `length` is the message-length field of the start line. -/
structure mrcp_start_line_t where
  message_type : mrcp_message_type_e
  version : mrcp_version_e
  length : Nat
  request_id : Nat
  method_name : List Nat
  method_id : Nat
  status_code : Nat
  request_state : Nat
  deriving DecidableEq, Repr

/-- Modelled from the spec: the declaration of `mrcp_channel_id` (mrcp_message.h)
is not among the sources: a session id and a resource name. -/
structure mrcp_channel_id where
  session_id : apt_str_t
  resource_name : apt_str_t
  deriving DecidableEq, Repr

/-- Modelled from the spec: the declaration of `mrcp_generic_header_t`
(mrcp_generic_header.h) is not among the sources; of its fields the stream
code reads `content_length` only. -/
structure mrcp_generic_header_t where
  content_length : Nat
  content_type : List Nat
  deriving DecidableEq, Repr

/-- Modelled from the spec: the declaration of `mrcp_message_header_t` is not among
the sources: the generic-header substructure (`none` when the accessor holds no
data), the set of generic-header properties that are set, and the
resource-specific name/value pairs. -/
structure mrcp_message_header_t where
  generic_header : Option mrcp_generic_header_t
  generic_properties : List Nat
  resource_header : List (List Nat × List Nat)
  deriving DecidableEq, Repr

/-- Modelled from the spec: the declaration of `mrcp_message_t` (mrcp_message.h) is
not among the sources: start line, channel identifier, header and body. -/
structure mrcp_message_t where
  start_line : mrcp_start_line_t
  channel_id : mrcp_channel_id
  header : mrcp_message_header_t
  body : apt_str_t
  deriving DecidableEq, Repr

/-- Modelled from the spec: the enumerator `GENERIC_HEADER_CONTENT_LENGTH`
(mrcp_generic_header.h) is not among the sources; its numeric value plays no role. -/
def GENERIC_HEADER_CONTENT_LENGTH : Nat := 8

/-- Modelled from the spec: `mrcp_generic_header_get` (mrcp_generic_header.h) is not
among the sources: the generic-header substructure of the message, `none` for
`NULL`. -/
def mrcp_generic_header_get (message : mrcp_message_t) : Option mrcp_generic_header_t :=
  message.header.generic_header

/-- Modelled from the spec: `mrcp_generic_header_property_check`
(mrcp_generic_header.h) is not among the sources: whether the property with
the given id is set on the message. -/
def mrcp_generic_header_property_check (message : mrcp_message_t) (id : Nat) : Bool :=
  decide (id ∈ message.header.generic_properties)

/-- Modelled from the spec: `mrcp_message_create` (mrcp_message.h) is not among the
sources: a fresh message with every field reset and no body buffer. -/
def mrcp_message_create : mrcp_message_t :=
  { start_line :=
      { message_type := mrcp_message_type_e.MRCP_MESSAGE_TYPE_UNKNOWN
        version := MRCP_VERSION_UNKNOWN
        length := 0
        request_id := 0
        method_name := []
        method_id := 0
        status_code := 0
        request_state := 0 }
    channel_id := { session_id := apt_string_reset, resource_name := apt_string_reset }
    header := { generic_header := none, generic_properties := [], resource_header := [] }
    body := apt_string_reset }

/-- Modelled from the spec: `apt_text_is_eos` (apt_text_stream.h) is not among the
sources: true iff `pos == buf + length`. -/
def apt_text_is_eos (stream : apt_text_stream_t) : Bool :=
  decide (stream.pos = some stream.length)

/-- Modulus of `apr_size_t` arithmetic (64-bit `size_t`). -/
def APR_SIZE_MOD : Nat := 18446744073709551616

/-- Subtraction of two `apr_size_t` values: wraps around below zero. -/
def size_sub (a b : Nat) : Nat :=
  if b ≤ a then a - b else (a + APR_SIZE_MOD - b) % APR_SIZE_MOD

/-- Addition of two `apr_size_t` values: wraps around at `APR_SIZE_MOD`. -/
def size_add (a b : Nat) : Nat :=
  (a + b) % APR_SIZE_MOD

/-- The call `memcpy(dst + doff, src + soff, n)` on two allocated regions: the
destination region after the copy, or `none` when the copy leaves either
region. -/
def memcpy (dst : List Nat) (doff : Nat) (src : List Nat) (soff : Nat) (n : Nat) :
    Option (List Nat) :=
  if doff + n ≤ dst.length ∧ soff + n ≤ src.length then
    some (dst.take doff ++ (src.drop soff).take n ++ dst.drop (doff + n))
  else
    none

/-- Pool allocation `apr_palloc(pool, n)`: a region of `n` bytes; the call is taken to
succeed.  The C contents of the region are unspecified: `pool i` is the byte the
region holds at offset `i` when the call returns it, whatever that is. -/
def apr_palloc (pool : Nat → Nat) (n : Nat) : List Nat :=
  (List.range n).map pool

/-- The collaborators of the stream code that live in other translation units:
tokenizers, resource factory lookups, validation and stream compaction.  Each
takes the object the C function receives by pointer and returns its `apt_bool_t`
result with the object as the call leaves it.  `pool` is the memory pool of the
parser and its messages, as `apr_palloc` reads it. -/
structure mrcp_externals_t where
  mrcp_start_line_parse :
    mrcp_start_line_t → apt_text_stream_t → Bool × mrcp_start_line_t × apt_text_stream_t
  mrcp_channel_id_parse :
    mrcp_channel_id → apt_text_stream_t → Bool × mrcp_channel_id × apt_text_stream_t
  mrcp_message_resourcify_by_name : mrcp_message_t → Bool × mrcp_message_t
  mrcp_message_header_parse :
    mrcp_message_header_t → apt_text_stream_t →
      Bool × mrcp_message_header_t × apt_text_stream_t
  mrcp_message_resourcify_by_id : mrcp_message_t → Bool × mrcp_message_t
  mrcp_message_validate : mrcp_message_t → Bool × mrcp_message_t
  mrcp_start_line_generate :
    mrcp_start_line_t → apt_text_stream_t → Bool × mrcp_start_line_t × apt_text_stream_t
  mrcp_channel_id_generate :
    mrcp_channel_id → apt_text_stream_t → Bool × mrcp_channel_id × apt_text_stream_t
  mrcp_message_header_generate :
    mrcp_message_header_t → apt_text_stream_t →
      Bool × mrcp_message_header_t × apt_text_stream_t
  mrcp_start_line_finalize :
    mrcp_start_line_t → Nat → apt_text_stream_t →
      Bool × mrcp_start_line_t × apt_text_stream_t
  apt_text_stream_scroll : apt_text_stream_t → Bool × apt_text_stream_t
  pool : Nat → Nat

/-- MRCP parser (`struct mrcp_parser_t`); the resource factory and the pool are part
of the externals. -/
structure mrcp_parser_t where
  resource_name : apt_str_t
  result : mrcp_stream_result_e
  pos : Option Nat
  message : Option mrcp_message_t
  deriving DecidableEq, Repr

/-- MRCP generator (`struct mrcp_generator_t`). -/
structure mrcp_generator_t where
  result : mrcp_stream_result_e
  pos : Option Nat
  message : Option mrcp_message_t
  deriving DecidableEq, Repr

/-! ## Message body transfer -/

/-- Read MRCP message-body (`mrcp_message_body_read`). -/
def mrcp_message_body_read (message : mrcp_message_t) (stream : apt_text_stream_t) :
    Option (mrcp_stream_result_e × mrcp_message_t × apt_text_stream_t) :=
  match message.body.buf with
  | none => some (MRCP_STREAM_MESSAGE_COMPLETE, message, stream)
  | some body_buf =>
    match mrcp_generic_header_get message, stream.pos with
    | some generic_header, some offset =>
      /- stream length available to read -/
      let stream_length := size_sub stream.length offset
      /- required/remaining length to read -/
      let required_length := size_sub generic_header.content_length message.body.length
      let truncated := decide (required_length > stream_length)
      let required_length := if truncated then stream_length else required_length
      let result :=
        if truncated then MRCP_STREAM_MESSAGE_TRUNCATED else MRCP_STREAM_MESSAGE_COMPLETE
      match memcpy body_buf message.body.length stream.buf offset required_length with
      | none => none
      | some body_buf1 =>
        some (result,
          { message with
            body := { buf := some body_buf1, length := message.body.length + required_length } },
          { stream with pos := some (offset + required_length) })
    | _, _ => none

/-- Parse MRCP message-body (`mrcp_message_body_parse`).  The size of the allocation,
`content_length + 1`, is computed in `apr_size_t`. -/
def mrcp_message_body_parse (pool : Nat → Nat) (message : mrcp_message_t)
    (stream : apt_text_stream_t) :
    Option (mrcp_stream_result_e × mrcp_message_t × apt_text_stream_t) :=
  if mrcp_generic_header_property_check message GENERIC_HEADER_CONTENT_LENGTH = true then
    match mrcp_generic_header_get message with
    | some generic_header =>
      if generic_header.content_length ≠ 0 then
        mrcp_message_body_read
          { message with
            body :=
              { buf := some (apr_palloc pool (size_add generic_header.content_length 1))
                length := 0 } }
          stream
      else
        some (MRCP_STREAM_MESSAGE_COMPLETE, message, stream)
    | none => some (MRCP_STREAM_MESSAGE_COMPLETE, message, stream)
  else
    some (MRCP_STREAM_MESSAGE_COMPLETE, message, stream)

/-- Write MRCP message-body (`mrcp_message_body_write`). -/
def mrcp_message_body_write (message : mrcp_message_t) (stream : apt_text_stream_t) :
    Option (mrcp_stream_result_e × mrcp_message_t × apt_text_stream_t) :=
  match mrcp_generic_header_get message with
  | none => some (MRCP_STREAM_MESSAGE_COMPLETE, message, stream)
  | some generic_header =>
    if message.body.length < generic_header.content_length then
      match message.body.buf, stream.pos with
      | some body_buf, some offset =>
        /- stream length available to write -/
        let stream_length := size_sub stream.length offset
        /- required/remaining length to write -/
        let required_length := size_sub generic_header.content_length message.body.length
        let truncated := decide (required_length > stream_length)
        let required_length := if truncated then stream_length else required_length
        let result :=
          if truncated then MRCP_STREAM_MESSAGE_TRUNCATED else MRCP_STREAM_MESSAGE_COMPLETE
        match memcpy stream.buf offset body_buf message.body.length required_length with
        | none => none
        | some stream_buf1 =>
          some (result,
            { message with
              body := { message.body with length := message.body.length + required_length } },
            { stream with buf := stream_buf1, pos := some (offset + required_length) })
      | _, _ => none
    else
      some (MRCP_STREAM_MESSAGE_COMPLETE, message, stream)

/-- Generate MRCP message-body (`mrcp_message_body_generate`). -/
def mrcp_message_body_generate (message : mrcp_message_t) (stream : apt_text_stream_t) :
    Option (mrcp_stream_result_e × mrcp_message_t × apt_text_stream_t) :=
  if mrcp_generic_header_property_check message GENERIC_HEADER_CONTENT_LENGTH = true then
    match mrcp_generic_header_get message with
    | some generic_header =>
      if generic_header.content_length ≠ 0 then
        mrcp_message_body_write
          { message with body := { message.body with length := 0 } } stream
      else
        some (MRCP_STREAM_MESSAGE_COMPLETE, message, stream)
    | none => some (MRCP_STREAM_MESSAGE_COMPLETE, message, stream)
  else
    some (MRCP_STREAM_MESSAGE_COMPLETE, message, stream)

/-! ## Parser -/

/-- Create MRCP stream parser (`mrcp_parser_create`). -/
def mrcp_parser_create : mrcp_parser_t :=
  { resource_name := apt_string_reset
    result := MRCP_STREAM_MESSAGE_INVALID
    pos := none
    message := none }

/-- Set resource name to be used while parsing, MRCPv1 only
(`mrcp_parser_resource_name_set`); `none` is a `NULL` name. -/
def mrcp_parser_resource_name_set (parser : mrcp_parser_t)
    (resource_name : Option apt_str_t) : mrcp_parser_t :=
  match resource_name with
  | some name => { parser with resource_name := name }
  | none => parser

/-- Failure of the start-line or header tokenizer (`mrcp_parser_break`). -/
def mrcp_parser_break (parser : mrcp_parser_t) (stream : apt_text_stream_t) :
    mrcp_stream_result_e × mrcp_parser_t × apt_text_stream_t :=
  if apt_text_is_eos stream = true then
    /- end of stream reached, rewind/restore stream -/
    (MRCP_STREAM_MESSAGE_TRUNCATED,
      { parser with result := MRCP_STREAM_MESSAGE_TRUNCATED, message := none },
      { stream with pos := parser.pos })
  else
    /- error case -/
    (MRCP_STREAM_MESSAGE_INVALID,
      { parser with result := MRCP_STREAM_MESSAGE_INVALID }, stream)

/-- The part of `mrcp_parser_run` that starts a new message (lines 166-192). -/
def mrcp_parser_run_new (E : mrcp_externals_t) (parser : mrcp_parser_t)
    (stream : apt_text_stream_t) :
    Option (mrcp_stream_result_e × mrcp_parser_t × apt_text_stream_t) :=
  /- create new MRCP message -/
  let message : mrcp_message_t :=
    { mrcp_message_create with
      channel_id :=
        { mrcp_message_create.channel_id with resource_name := parser.resource_name } }
  /- store current position to be able to rewind/restore stream if needed -/
  let parser := { parser with message := some message, pos := stream.pos }
  /- parse start-line -/
  let sl := E.mrcp_start_line_parse message.start_line stream
  let message := { message with start_line := sl.2.1 }
  let parser := { parser with message := some message }
  if sl.1 = false then
    some (mrcp_parser_break parser sl.2.2)
  else
    let ch :=
      if message.start_line.version = MRCP_VERSION_2 then
        E.mrcp_channel_id_parse message.channel_id sl.2.2
      else
        (true, message.channel_id, sl.2.2)
    let message := { message with channel_id := ch.2.1 }
    let rs := E.mrcp_message_resourcify_by_name message
    let message := rs.2
    let parser := { parser with message := some message }
    if rs.1 = false then
      some (MRCP_STREAM_MESSAGE_INVALID, parser, ch.2.2)
    else
      /- parse header -/
      let hd := E.mrcp_message_header_parse message.header ch.2.2
      let message := { message with header := hd.2.1 }
      let parser := { parser with message := some message }
      if hd.1 = false then
        some (mrcp_parser_break parser hd.2.2)
      else
        /- parse body -/
        match mrcp_message_body_parse E.pool message hd.2.2 with
        | none => none
        | some r => some (r.1, { parser with result := r.1, message := some r.2.1 }, r.2.2)

/-- Parse MRCP stream (`mrcp_parser_run`). -/
def mrcp_parser_run (E : mrcp_externals_t) (parser : mrcp_parser_t)
    (stream : apt_text_stream_t) :
    Option (mrcp_stream_result_e × mrcp_parser_t × apt_text_stream_t) :=
  match parser.message with
  | some message =>
    if parser.result = MRCP_STREAM_MESSAGE_TRUNCATED then
      /- process continuation data -/
      match mrcp_message_body_read message stream with
      | none => none
      | some r => some (r.1, { parser with result := r.1, message := some r.2.1 }, r.2.2)
    else
      mrcp_parser_run_new E parser stream
  | none => mrcp_parser_run_new E parser stream

/-- The message `mrcp_parser_run` creates for a new parse (lines 167-168): a fresh
message that carries the parser's resource name. -/
def parser_new_message (parser : mrcp_parser_t) : mrcp_message_t :=
  { mrcp_message_create with
    channel_id :=
      { mrcp_message_create.channel_id with resource_name := parser.resource_name } }

/-- Where a new parse stands after the start-line tokenizer (line 173): its result,
the message and the stream. -/
def parser_stage_start_line (E : mrcp_externals_t) (parser : mrcp_parser_t)
    (stream : apt_text_stream_t) : Bool × mrcp_message_t × apt_text_stream_t :=
  let sl := E.mrcp_start_line_parse (parser_new_message parser).start_line stream
  (sl.1, { parser_new_message parser with start_line := sl.2.1 }, sl.2.2)

/-- Where a new parse stands after the channel-id tokenizer, which runs for version 2
only (lines 177-179): the message and the stream. -/
def parser_stage_channel_id (E : mrcp_externals_t) (parser : mrcp_parser_t)
    (stream : apt_text_stream_t) : mrcp_message_t × apt_text_stream_t :=
  let st := parser_stage_start_line E parser stream
  if st.2.1.start_line.version = MRCP_VERSION_2 then
    let ch := E.mrcp_channel_id_parse st.2.1.channel_id st.2.2
    ({ st.2.1 with channel_id := ch.2.1 }, ch.2.2)
  else
    (st.2.1, st.2.2)

/-- Where a new parse stands after `mrcp_message_resourcify_by_name` (line 181): its
result, the message and the stream. -/
def parser_stage_resourcify (E : mrcp_externals_t) (parser : mrcp_parser_t)
    (stream : apt_text_stream_t) : Bool × mrcp_message_t × apt_text_stream_t :=
  let st := parser_stage_channel_id E parser stream
  let rs := E.mrcp_message_resourcify_by_name st.1
  (rs.1, rs.2, st.2)

/-- Where a new parse stands after the header tokenizer (line 186): its result, the
message and the stream. -/
def parser_stage_header (E : mrcp_externals_t) (parser : mrcp_parser_t)
    (stream : apt_text_stream_t) : Bool × mrcp_message_t × apt_text_stream_t :=
  let st := parser_stage_resourcify E parser stream
  let hd := E.mrcp_message_header_parse st.2.1.header st.2.2
  (hd.1, { st.2.1 with header := hd.2.1 }, hd.2.2)

/-- Get parsed MRCP message (`mrcp_parser_message_get`). -/
def mrcp_parser_message_get (parser : mrcp_parser_t) : Option mrcp_message_t :=
  parser.message

/-! ## Generator -/

/-- Create MRCP stream generator (`mrcp_generator_create`). -/
def mrcp_generator_create : mrcp_generator_t :=
  { result := MRCP_STREAM_MESSAGE_INVALID
    pos := none
    message := none }

/-- Set MRCP message to generate (`mrcp_generator_message_set`); `none` is a `NULL`
message. -/
def mrcp_generator_message_set (generator : mrcp_generator_t)
    (message : Option mrcp_message_t) : Bool × mrcp_generator_t :=
  match message with
  | none => (false, generator)
  | some m => (true, { generator with message := some m })

/-- Failure of the start-line or header generation (`mrcp_generator_break`). -/
def mrcp_generator_break (generator : mrcp_generator_t) (stream : apt_text_stream_t) :
    mrcp_stream_result_e × mrcp_generator_t × apt_text_stream_t :=
  if apt_text_is_eos stream = true then
    /- end of stream reached, rewind/restore stream -/
    (MRCP_STREAM_MESSAGE_TRUNCATED,
      { generator with result := MRCP_STREAM_MESSAGE_TRUNCATED },
      { stream with pos := generator.pos })
  else
    /- error case -/
    (MRCP_STREAM_MESSAGE_INVALID,
      { generator with result := MRCP_STREAM_MESSAGE_INVALID }, stream)

/-- Generate MRCP stream (`mrcp_generator_run`). -/
def mrcp_generator_run (E : mrcp_externals_t) (generator : mrcp_generator_t)
    (stream : apt_text_stream_t) :
    Option (mrcp_stream_result_e × mrcp_generator_t × apt_text_stream_t) :=
  match generator.message with
  | none => some (MRCP_STREAM_MESSAGE_INVALID, generator, stream)
  | some message =>
    if generator.result = MRCP_STREAM_MESSAGE_TRUNCATED then
      /- process continuation data -/
      match mrcp_message_body_write message stream with
      | none => none
      | some r => some (r.1, { generator with result := r.1, message := some r.2.1 }, r.2.2)
    else
      /- initialize resource specific data -/
      let rs := E.mrcp_message_resourcify_by_id message
      let message := rs.2
      let generator := { generator with message := some message }
      if rs.1 = false then
        some (MRCP_STREAM_MESSAGE_INVALID, generator, stream)
      else
        /- validate message -/
        let va := E.mrcp_message_validate message
        let message := va.2
        let generator := { generator with message := some message }
        if va.1 = false then
          some (MRCP_STREAM_MESSAGE_INVALID, generator, stream)
        else
          /- generate start-line -/
          let sl := E.mrcp_start_line_generate message.start_line stream
          let message := { message with start_line := sl.2.1 }
          let generator := { generator with message := some message }
          if sl.1 = false then
            some (mrcp_generator_break generator sl.2.2)
          else
            let ch :=
              if message.start_line.version = MRCP_VERSION_2 then
                E.mrcp_channel_id_generate message.channel_id sl.2.2
              else
                (true, message.channel_id, sl.2.2)
            let message := { message with channel_id := ch.2.1 }
            /- generate header -/
            let hd := E.mrcp_message_header_generate message.header ch.2.2
            let message := { message with header := hd.2.1 }
            let generator := { generator with message := some message }
            if hd.1 = false then
              some (mrcp_generator_break generator hd.2.2)
            else
              /- finalize start-line generation -/
              let fin := E.mrcp_start_line_finalize message.start_line message.body.length hd.2.2
              let message := { message with start_line := fin.2.1 }
              /- generate body -/
              match mrcp_message_body_generate message fin.2.2 with
              | none => none
              | some r =>
                some (r.1, { generator with result := r.1, message := some r.2.1 }, r.2.2)

/-- Where a generator run stands after `mrcp_message_resourcify_by_id` (line 254):
its result and the message. -/
def generator_stage_resourcify (E : mrcp_externals_t) (message : mrcp_message_t) :
    Bool × mrcp_message_t :=
  E.mrcp_message_resourcify_by_id message

/-- Where a generator run stands after `mrcp_message_validate` (line 259): its result
and the message. -/
def generator_stage_validate (E : mrcp_externals_t) (message : mrcp_message_t) :
    Bool × mrcp_message_t :=
  E.mrcp_message_validate (generator_stage_resourcify E message).2

/-- Where a generator run stands after the start-line generation (line 264): its
result, the message and the stream. -/
def generator_stage_start_line (E : mrcp_externals_t) (message : mrcp_message_t)
    (stream : apt_text_stream_t) : Bool × mrcp_message_t × apt_text_stream_t :=
  let m := (generator_stage_validate E message).2
  let sl := E.mrcp_start_line_generate m.start_line stream
  (sl.1, { m with start_line := sl.2.1 }, sl.2.2)

/-- Where a generator run stands after the channel-id generation, which runs for
version 2 only (lines 268-270): the message and the stream. -/
def generator_stage_channel_id (E : mrcp_externals_t) (message : mrcp_message_t)
    (stream : apt_text_stream_t) : mrcp_message_t × apt_text_stream_t :=
  let st := generator_stage_start_line E message stream
  if st.2.1.start_line.version = MRCP_VERSION_2 then
    let ch := E.mrcp_channel_id_generate st.2.1.channel_id st.2.2
    ({ st.2.1 with channel_id := ch.2.1 }, ch.2.2)
  else
    (st.2.1, st.2.2)

/-- Where a generator run stands after the header generation (line 273): its result,
the message and the stream. -/
def generator_stage_header (E : mrcp_externals_t) (message : mrcp_message_t)
    (stream : apt_text_stream_t) : Bool × mrcp_message_t × apt_text_stream_t :=
  let st := generator_stage_channel_id E message stream
  let hd := E.mrcp_message_header_generate st.1.header st.2
  (hd.1, { st.1 with header := hd.2.1 }, hd.2.2)

/-- Where a generator run stands after `mrcp_start_line_finalize` (line 278): the
message and the stream. -/
def generator_stage_finalize (E : mrcp_externals_t) (message : mrcp_message_t)
    (stream : apt_text_stream_t) : mrcp_message_t × apt_text_stream_t :=
  let st := generator_stage_header E message stream
  let fin := E.mrcp_start_line_finalize st.2.1.start_line st.2.1.body.length st.2.2
  ({ st.2.1 with start_line := fin.2.1 }, fin.2.2)

/-- Number of bytes between the cursors of two states of a stream (zero when a cursor
is `NULL`). -/
def stream_advance (before after : apt_text_stream_t) : Nat :=
  match before.pos, after.pos with
  | some a, some b => b - a
  | _, _ => 0

/-- The content length the body phase acts on: `content_length` when the
`Content-Length` property is set and the generic header is present, else zero. -/
def message_content_length (message : mrcp_message_t) : Nat :=
  if mrcp_generic_header_property_check message GENERIC_HEADER_CONTENT_LENGTH = true then
    match mrcp_generic_header_get message with
    | some generic_header => generic_header.content_length
    | none => 0
  else
    0

/-! ## Stream walker -/

/-- What a call of a function with a loop comes to, given a bound on the number of
iterations: the bound is used up, the C program runs into undefined behaviour,
or the call returns. -/
inductive walk_outcome (α : Type) where
  | out_of_fuel
  | undefined
  | returned (value : α)
  deriving DecidableEq, Repr

/-- Message handler `mrcp_message_handler_f`: called with the object `obj`, the message
pointer and the result of the run; returns its `apt_bool_t` result and the object as
the call leaves it. -/
abbrev mrcp_message_handler_f (σ : Type) : Type :=
  σ → Option mrcp_message_t → mrcp_stream_result_e → Bool × σ

/-- The `do ... while` loop of `mrcp_stream_walk` (lines 290-310), with a bound on the
number of iterations.  It returns no result when the handler returned `FALSE` (the
walk returns `FALSE` from inside the loop), else the result of the last run; with
it the parser, the stream and the handler object. -/
def mrcp_stream_walk_loop {σ : Type} (E : mrcp_externals_t) (handler : mrcp_message_handler_f σ) :
    Nat → mrcp_parser_t → apt_text_stream_t → σ →
      walk_outcome (Option mrcp_stream_result_e × mrcp_parser_t × apt_text_stream_t × σ)
  | 0, _, _, _ => walk_outcome.out_of_fuel
  | fuel + 1, parser, stream, obj =>
    match mrcp_parser_run E parser stream with
    | none => walk_outcome.undefined
    | some r =>
      /- invoke message handler -/
      let h := handler obj r.2.1.message r.1
      if h.1 = false then
        walk_outcome.returned (none, r.2.1, r.2.2, h.2)
      else if apt_text_is_eos r.2.2 = false ∧ r.1 ≠ MRCP_STREAM_MESSAGE_TRUNCATED then
        mrcp_stream_walk_loop E handler fuel r.2.1 r.2.2 h.2
      else
        walk_outcome.returned (some r.1, r.2.1, r.2.2, h.2)

/-- Walk through MRCP stream and invoke message handler for each parsed message
(`mrcp_stream_walk`), with a bound on the number of iterations of its loop. -/
def mrcp_stream_walk {σ : Type} (E : mrcp_externals_t) (handler : mrcp_message_handler_f σ)
    (fuel : Nat) (parser : mrcp_parser_t) (stream : apt_text_stream_t) (obj : σ) :
    walk_outcome (Bool × mrcp_parser_t × apt_text_stream_t × σ) :=
  match mrcp_stream_walk_loop E handler fuel parser stream obj with
  | walk_outcome.out_of_fuel => walk_outcome.out_of_fuel
  | walk_outcome.undefined => walk_outcome.undefined
  | walk_outcome.returned (none, parser1, stream1, obj1) =>
    walk_outcome.returned (false, parser1, stream1, obj1)
  | walk_outcome.returned (some result, parser1, stream1, obj1) =>
    /- prepare stream for further processing -/
    if result = MRCP_STREAM_MESSAGE_TRUNCATED then
      let scroll := E.apt_text_stream_scroll stream1
      if scroll.1 = true then
        walk_outcome.returned (true, parser1, scroll.2, obj1)
      else
        walk_outcome.returned (true, parser1, { scroll.2 with pos := some 0 }, obj1)
    else
      walk_outcome.returned (true, parser1, { stream1 with pos := some 0 }, obj1)

/-- The handler object after the handler has been called once for each of the given run
outcomes, in order, with the parser's message and the result of the run. -/
def handler_state {σ : Type} (handler : mrcp_message_handler_f σ) :
    σ → List (mrcp_stream_result_e × mrcp_parser_t × apt_text_stream_t) → σ
  | obj, [] => obj
  | obj, r :: rs => handler_state handler (handler obj r.2.1.message r.1).2 rs

/-- The walk goes on after each of the given run outcomes: the handler, called with the
parser's message and the result, returns true, the stream is not at its end and
the result is not Truncated. -/
def walk_continues {σ : Type} (handler : mrcp_message_handler_f σ) :
    σ → List (mrcp_stream_result_e × mrcp_parser_t × apt_text_stream_t) → Prop
  | _, [] => True
  | obj, r :: rs =>
    (handler obj r.2.1.message r.1).1 = true ∧
      apt_text_is_eos r.2.2 = false ∧ r.1 ≠ MRCP_STREAM_MESSAGE_TRUNCATED ∧
      walk_continues handler (handler obj r.2.1.message r.1).2 rs

/-- The value a call returned, or the given default when it did not return. -/
def walk_value {α : Type} (default : α) : walk_outcome α → α
  | walk_outcome.returned value => value
  | _ => default

/-! ## Sequences of runs and the predicates the theorems use -/

/-- The cursor of the stream lies within `[buf, buf + length]` and the text lies within
the memory of the buffer. -/
def stream_ok (stream : apt_text_stream_t) : Prop :=
  match stream.pos with
  | none => False
  | some offset => offset ≤ stream.length ∧ stream.length ≤ stream.buf.length

instance stream_ok_decidable (stream : apt_text_stream_t) : Decidable (stream_ok stream) := by
  unfold stream_ok
  cases stream.pos <;> infer_instance

/-- A tokenizer keeps the cursor within `[buf, buf + length]` and leaves the extent of
the text as it is. -/
def tokenizer_ok {α : Type}
    (tokenizer : α → apt_text_stream_t → Bool × α × apt_text_stream_t) : Prop :=
  ∀ a stream, stream_ok stream →
    stream_ok (tokenizer a stream).2.2 ∧ (tokenizer a stream).2.2.length = stream.length

/-- The body of the message can take part in a body transfer: no body buffer at all, or
a buffer that holds `content_length` bytes of which `body.length` are in use. -/
def body_ready (message : mrcp_message_t) : Prop :=
  match message.body.buf, mrcp_generic_header_get message with
  | none, _ => True
  | some body_buf, some generic_header =>
    message.body.length ≤ generic_header.content_length ∧
      generic_header.content_length ≤ body_buf.length
  | some _, none => False

instance body_ready_decidable (message : mrcp_message_t) : Decidable (body_ready message) := by
  unfold body_ready
  split <;> infer_instance

/-- The parser holds a message it can resume whenever its stored result is Truncated. -/
def parser_ready (parser : mrcp_parser_t) : Prop :=
  match parser.message with
  | some message => parser.result = MRCP_STREAM_MESSAGE_TRUNCATED → body_ready message
  | none => True

instance parser_ready_decidable (parser : mrcp_parser_t) : Decidable (parser_ready parser) := by
  unfold parser_ready
  split <;> infer_instance

/-- Successive calls of `mrcp_parser_run` on one stream.  Before each call the caller
acts on the stream (refills it, scrolls it, or leaves it alone): one function per
call.  The outcome of every call, in order. -/
def mrcp_parser_run_seq (E : mrcp_externals_t) (parser : mrcp_parser_t)
    (stream : apt_text_stream_t) :
    List (apt_text_stream_t → apt_text_stream_t) →
      Option (List (mrcp_stream_result_e × mrcp_parser_t × apt_text_stream_t))
  | [] => some []
  | caller :: callers =>
    match mrcp_parser_run E parser (caller stream) with
    | none => none
    | some r =>
      match mrcp_parser_run_seq E r.2.1 r.2.2 callers with
      | none => none
      | some rs => some (r :: rs)

/-- The bytes the stream still holds: the text from the cursor to its end. -/
def stream_remaining (stream : apt_text_stream_t) : List Nat :=
  match stream.pos with
  | none => []
  | some offset => (stream.buf.drop offset).take (stream.length - offset)

/-- The stream is within bounds and presents the chunk as its remaining bytes. -/
def stream_presents (stream : apt_text_stream_t) (chunk : List Nat) : Prop :=
  stream_ok stream ∧ stream_remaining stream = chunk

instance stream_presents_decidable (stream : apt_text_stream_t) (chunk : List Nat) :
    Decidable (stream_presents stream chunk) := by
  unfold stream_presents
  infer_instance

/-- The message with `fed` as the bytes read so far into a body buffer of
`content_length + 1` bytes allocated from the pool: behind `fed` the buffer is as
the allocation left it. -/
def body_fed (pool : Nat → Nat) (message : mrcp_message_t) (content_length : Nat)
    (fed : List Nat) : mrcp_message_t :=
  { message with
    body :=
      { buf := some (fed ++ (apr_palloc pool (content_length + 1)).drop fed.length)
        length := fed.length } }

/-- The bytes an output stream holds in front of its cursor (none under a `NULL`
cursor). -/
def stream_written (stream : apt_text_stream_t) : List Nat :=
  match stream.pos with
  | some offset => stream.buf.take offset
  | none => []

/-- The bytes of a counted string: the first `length` bytes of its buffer. -/
def apt_str_bytes (str : apt_str_t) : List Nat :=
  (str.buf.getD []).take str.length

/-- The input stream over what a generation wrote: the buffer as the generation left
it, read from the cursor before the generation up to the cursor after it. -/
def stream_replay (before after : apt_text_stream_t) : apt_text_stream_t :=
  { buf := after.buf, length := after.pos.getD 0, pos := before.pos }

/-- Successive calls of `mrcp_message_body_read` on one message, one stream per call: the
outcome of every call, in order. -/
def mrcp_message_body_read_seq (message : mrcp_message_t) :
    List apt_text_stream_t →
      Option (List (mrcp_stream_result_e × mrcp_message_t × apt_text_stream_t))
  | [] => some []
  | stream :: streams =>
    match mrcp_message_body_read message stream with
    | none => none
    | some r =>
      match mrcp_message_body_read_seq r.2.1 streams with
      | none => none
      | some rs => some (r :: rs)

/-- The body of the message is a buffer of `content_length + 1` bytes of which
`body.length ≤ content_length` are in use, and every byte from `body.length` on is
as the allocation left it. -/
def body_within (pool : Nat → Nat) (content_length : Nat) (message : mrcp_message_t) : Prop :=
  ∃ body_buf, message.body.buf = some body_buf ∧
    body_buf.length = content_length + 1 ∧
    message.body.length ≤ content_length ∧
    ∀ i, message.body.length ≤ i →
      body_buf[i]? = (apr_palloc pool (content_length + 1))[i]?

/-! ## Concrete data used to instantiate the theorems -/

/-- A header whose only generic property is `Content-Length: n`. -/
def ex_header (n : Nat) : mrcp_message_header_t :=
  { generic_header := some { content_length := n, content_type := [] }
    generic_properties := [GENERIC_HEADER_CONTENT_LENGTH]
    resource_header := [] }

/-- A message with `Content-Length: 5` whose body buffer of six bytes already holds
the three bytes `hel`. -/
def ex_message_hel : mrcp_message_t :=
  { mrcp_message_create with
    header := ex_header 5
    body := { buf := some [104, 101, 108, 0, 0, 0], length := 3 } }

/-- A stream of the two bytes `lo` with the cursor at its start. -/
def ex_stream_lo : apt_text_stream_t :=
  { buf := [108, 111], length := 2, pos := some 0 }

/-- A message with `Content-Length: 5` and the body `hello`, of which three bytes
have been written out already. -/
def ex_message_hello3 : mrcp_message_t :=
  { mrcp_message_create with
    header := ex_header 5
    body := { buf := some [104, 101, 108, 108, 111], length := 3 } }

/-- An output stream of four free bytes with the cursor after the first. -/
def ex_stream_out4 : apt_text_stream_t :=
  { buf := [7, 0, 0, 9], length := 4, pos := some 1 }

/-! ### A small wire format for the externals

Start line: three bytes `version, method, message-length`; channel identifier
(version 2 only): two bytes `session, resource`; header: one byte, the content
length (zero for no `Content-Length`).  A tokenizer that runs out of input, or
a generator that runs out of space, fails with the cursor at the end of the
stream; a malformed token fails with the cursor behind it. -/

/-- Byte of the stream buffer at an offset (zero outside the buffer). -/
def ex_byte (stream : apt_text_stream_t) (i : Nat) : Nat :=
  stream.buf.getD i 0

/-- Store bytes into the stream buffer at an offset and move the cursor behind them. -/
def ex_put (stream : apt_text_stream_t) (offset : Nat) (bytes : List Nat) :
    apt_text_stream_t :=
  { stream with
    buf := stream.buf.take offset ++ bytes ++ stream.buf.drop (offset + bytes.length)
    pos := some (offset + bytes.length) }

/-- Start-line tokenizer of the small wire format. -/
def ex_start_line_parse (start_line : mrcp_start_line_t) (stream : apt_text_stream_t) :
    Bool × mrcp_start_line_t × apt_text_stream_t :=
  match stream.pos with
  | none => (false, start_line, stream)
  | some offset =>
    if offset + 3 ≤ stream.length then
      if ex_byte stream offset = 1 ∨ ex_byte stream offset = 2 then
        (true,
          { start_line with
            message_type := mrcp_message_type_e.MRCP_MESSAGE_TYPE_REQUEST
            version := if ex_byte stream offset = 1 then MRCP_VERSION_1 else MRCP_VERSION_2
            method_name := [ex_byte stream (offset + 1)]
            length := ex_byte stream (offset + 2) },
          { stream with pos := some (offset + 3) })
      else
        (false, start_line, { stream with pos := some (offset + 1) })
    else
      (false, start_line, { stream with pos := some stream.length })

/-- Channel-id tokenizer of the small wire format. -/
def ex_channel_id_parse (channel_id : mrcp_channel_id) (stream : apt_text_stream_t) :
    Bool × mrcp_channel_id × apt_text_stream_t :=
  match stream.pos with
  | none => (false, channel_id, stream)
  | some offset =>
    if offset + 2 ≤ stream.length then
      (true,
        { session_id := { buf := some [ex_byte stream offset], length := 1 }
          resource_name := { buf := some [ex_byte stream (offset + 1)], length := 1 } },
        { stream with pos := some (offset + 2) })
    else
      (false, channel_id, { stream with pos := some stream.length })

/-- Header tokenizer of the small wire format. -/
def ex_header_parse (header : mrcp_message_header_t) (stream : apt_text_stream_t) :
    Bool × mrcp_message_header_t × apt_text_stream_t :=
  match stream.pos with
  | none => (false, header, stream)
  | some offset =>
    if offset + 1 ≤ stream.length then
      (true,
        (if ex_byte stream offset % 256 = 0 then
          { generic_header := none, generic_properties := [], resource_header := [] }
        else ex_header (ex_byte stream offset % 256)),
        { stream with pos := some (offset + 1) })
    else
      (false, header, { stream with pos := some stream.length })

/-- Resource lookup by name: the one resource `s` with the one method `S`, id 1. -/
def ex_resourcify_by_name (message : mrcp_message_t) : Bool × mrcp_message_t :=
  if message.channel_id.resource_name = { buf := some [115], length := 1 } ∧
      message.start_line.method_name = [83] then
    (true, { message with start_line := { message.start_line with method_id := 1 } })
  else
    (false, message)

/-- Resource lookup by id, the reverse of `ex_resourcify_by_name`. -/
def ex_resourcify_by_id (message : mrcp_message_t) : Bool × mrcp_message_t :=
  if message.channel_id.resource_name = { buf := some [115], length := 1 } ∧
      message.start_line.method_id = 1 then
    (true, { message with start_line := { message.start_line with method_name := [83] } })
  else
    (false, message)

/-- Validation: the start line is a request of a known version. -/
def ex_validate (message : mrcp_message_t) : Bool × mrcp_message_t :=
  (decide (message.start_line.message_type = mrcp_message_type_e.MRCP_MESSAGE_TYPE_REQUEST ∧
    message.start_line.version ≠ MRCP_VERSION_UNKNOWN), message)

/-- Start-line generator of the small wire format; it leaves the offset of the
message-length byte in `length` for the finalization. -/
def ex_start_line_generate (start_line : mrcp_start_line_t) (stream : apt_text_stream_t) :
    Bool × mrcp_start_line_t × apt_text_stream_t :=
  match stream.pos with
  | none => (false, start_line, stream)
  | some offset =>
    if offset + 3 ≤ stream.length then
      (true, { start_line with length := offset + 2 },
        ex_put stream offset
          [if start_line.version = MRCP_VERSION_1 then 1 else 2,
            start_line.method_name.headD 0, 0])
    else
      (false, start_line, { stream with pos := some stream.length })

/-- Channel-id generator of the small wire format. -/
def ex_channel_id_generate (channel_id : mrcp_channel_id) (stream : apt_text_stream_t) :
    Bool × mrcp_channel_id × apt_text_stream_t :=
  match stream.pos with
  | none => (false, channel_id, stream)
  | some offset =>
    if offset + 2 ≤ stream.length then
      (true, channel_id,
        ex_put stream offset
          [(channel_id.session_id.buf.getD []).headD 0,
            (channel_id.resource_name.buf.getD []).headD 0])
    else
      (false, channel_id, { stream with pos := some stream.length })

/-- Header generator of the small wire format. -/
def ex_header_generate (header : mrcp_message_header_t) (stream : apt_text_stream_t) :
    Bool × mrcp_message_header_t × apt_text_stream_t :=
  match stream.pos with
  | none => (false, header, stream)
  | some offset =>
    if offset + 1 ≤ stream.length then
      (true, header,
        ex_put stream offset
          [match header.generic_header with
            | some generic_header =>
              if GENERIC_HEADER_CONTENT_LENGTH ∈ header.generic_properties then
                generic_header.content_length
              else 0
            | none => 0])
    else
      (false, header, { stream with pos := some stream.length })

/-- Finalization of the small wire format: the message-length byte receives the
length of the start line and headers plus the body length it is passed. -/
def ex_start_line_finalize (start_line : mrcp_start_line_t) (body_length : Nat)
    (stream : apt_text_stream_t) : Bool × mrcp_start_line_t × apt_text_stream_t :=
  match stream.pos with
  | none => (false, start_line, stream)
  | some offset =>
    (true, { start_line with length := offset + body_length - (start_line.length - 2) },
      { stream with
        buf := stream.buf.set start_line.length
          (offset + body_length - (start_line.length - 2)) })

/-- Stream compaction: nothing to scroll at the start or the end of the stream;
otherwise the unconsumed tail moves to the front and the cursor behind it. -/
def ex_stream_scroll (stream : apt_text_stream_t) : Bool × apt_text_stream_t :=
  match stream.pos with
  | none => (false, stream)
  | some offset =>
    if offset = 0 ∨ stream.length ≤ offset then
      (false, stream)
    else
      (true,
        { stream with
          buf := (stream.buf.drop offset).take (stream.length - offset) ++
            stream.buf.drop (stream.length - offset)
          pos := some (stream.length - offset) })

/-- The externals of the small wire format. -/
def ex_externals : mrcp_externals_t :=
  { mrcp_start_line_parse := ex_start_line_parse
    mrcp_channel_id_parse := ex_channel_id_parse
    mrcp_message_resourcify_by_name := ex_resourcify_by_name
    mrcp_message_header_parse := ex_header_parse
    mrcp_message_resourcify_by_id := ex_resourcify_by_id
    mrcp_message_validate := ex_validate
    mrcp_start_line_generate := ex_start_line_generate
    mrcp_channel_id_generate := ex_channel_id_generate
    mrcp_message_header_generate := ex_header_generate
    mrcp_start_line_finalize := ex_start_line_finalize
    apt_text_stream_scroll := ex_stream_scroll
    pool := fun _ => 255 }

/-- The version 2 request `SPEAK` on channel `a@s` with the body `hello`, as an
application hands it to the generator. -/
def ex_message_speak : mrcp_message_t :=
  { start_line :=
      { message_type := mrcp_message_type_e.MRCP_MESSAGE_TYPE_REQUEST
        version := MRCP_VERSION_2
        length := 0
        request_id := 0
        method_name := []
        method_id := 1
        status_code := 0
        request_state := 0 }
    channel_id :=
      { session_id := { buf := some [97], length := 1 }
        resource_name := { buf := some [115], length := 1 } }
    header := ex_header 5
    body := { buf := some [104, 101, 108, 108, 111], length := 5 } }

/-- The bytes of `ex_message_speak` in the small wire format: start line `2 83 11`,
channel identifier `97 115`, header `5`, body `hello`. -/
def ex_wire_speak : List Nat :=
  [2, 83, 11, 97, 115, 5, 104, 101, 108, 108, 111]

/-- An input stream over the given bytes with the cursor at its start. -/
def ex_stream_in (bytes : List Nat) : apt_text_stream_t :=
  { buf := bytes, length := bytes.length, pos := some 0 }

/-- An output stream of `n` free bytes with the cursor at its start. -/
def ex_stream_out (n : Nat) : apt_text_stream_t :=
  { buf := List.replicate n 0, length := n, pos := some 0 }

/-- A generator as created, with `ex_message_speak` set. -/
def ex_generator_speak : mrcp_generator_t :=
  (mrcp_generator_message_set mrcp_generator_create (some ex_message_speak)).2

/-- The bytes of a version 2 request that names the unknown resource `x`. -/
def ex_wire_bogus : List Nat :=
  [2, 83, 6, 97, 120, 0]

/-- The request of `ex_message_speak` with a body of five bytes under the header
`Content-Length: 3`. -/
def ex_message_mismatch : mrcp_message_t :=
  { ex_message_speak with header := ex_header 3 }

/-- A generator as created, with `ex_message_mismatch` set. -/
def ex_generator_mismatch : mrcp_generator_t :=
  (mrcp_generator_message_set mrcp_generator_create (some ex_message_mismatch)).2

/-- The request of `ex_message_speak` as a version 1 message: the session identifier
`a` is still on the message, as the transport layer fills it in. -/
def ex_message_speak_v1 : mrcp_message_t :=
  { ex_message_speak with
    start_line := { ex_message_speak.start_line with version := MRCP_VERSION_1 } }

/-- The resource name `s`, as preset on a version 1 parser. -/
def ex_resource_name : apt_str_t :=
  { buf := some [115], length := 1 }

/-- A message with the header `Content-Length: 0` and a body of two bytes. -/
def ex_message_zero : mrcp_message_t :=
  { mrcp_message_create with
    header := ex_header 0
    body := { buf := some [1, 2], length := 2 } }

/-- The request of `ex_message_speak` with a method id the resource does not know. -/
def ex_message_unknown : mrcp_message_t :=
  { ex_message_speak with
    start_line := { ex_message_speak.start_line with method_id := 7 } }

/-- A generator as created, with `ex_message_unknown` set. -/
def ex_generator_unknown : mrcp_generator_t :=
  (mrcp_generator_message_set mrcp_generator_create (some ex_message_unknown)).2

/-- Four input bytes whose first is no protocol version. -/
def ex_wire_malformed : List Nat :=
  [3, 83, 6, 0]

/-- A message with `Content-Length: 5` as the header tokenizer leaves it: no body buffer
yet. -/
def ex_message_headers : mrcp_message_t :=
  { mrcp_message_create with header := ex_header 5 }

/-- A stream of the two bytes `he` with the cursor at its start. -/
def ex_stream_he : apt_text_stream_t :=
  { buf := [104, 101], length := 2, pos := some 0 }

/-- A stream of the six bytes `lloMRC`, more than the body still takes. -/
def ex_stream_llo : apt_text_stream_t :=
  { buf := [108, 108, 111, 77, 82, 67], length := 6, pos := some 0 }

/-- A handler that counts its calls, keeps the results it is called with (newest first)
and cancels when called with Invalid. -/
def ex_handler : mrcp_message_handler_f (List mrcp_stream_result_e) :=
  fun obj _ result => (decide (result ≠ MRCP_STREAM_MESSAGE_INVALID), result :: obj)

/-- A handler that keeps the results it is called with and never cancels. -/
def ex_handler_all : mrcp_message_handler_f (List mrcp_stream_result_e) :=
  fun obj _ result => (true, result :: obj)

/-- A handler that keeps, for each call, the result and whether it was passed a message
(newest first), and never cancels. -/
def ex_handler_seen : mrcp_message_handler_f (List (mrcp_stream_result_e × Bool)) :=
  fun obj message result => (true, (result, message.isSome) :: obj)

/-- An input stream that holds `ex_wire_speak` twice. -/
def ex_walk_stream : apt_text_stream_t :=
  ex_stream_in (ex_wire_speak ++ ex_wire_speak)

/-- The outcome of the first run on `ex_walk_stream`. -/
def ex_walk_first : mrcp_stream_result_e × mrcp_parser_t × apt_text_stream_t :=
  (mrcp_parser_run ex_externals mrcp_parser_create ex_walk_stream).getD
    (MRCP_STREAM_MESSAGE_INVALID, mrcp_parser_create, ex_walk_stream)

/-- The outcome of the second run on `ex_walk_stream`. -/
def ex_walk_second : mrcp_stream_result_e × mrcp_parser_t × apt_text_stream_t :=
  (mrcp_parser_run ex_externals ex_walk_first.2.1 ex_walk_first.2.2).getD
    (MRCP_STREAM_MESSAGE_INVALID, mrcp_parser_create, ex_walk_stream)

/-- An input stream that holds `ex_wire_speak` and the first five bytes of a second
message. -/
def ex_walk_stream_cut : apt_text_stream_t :=
  ex_stream_in (ex_wire_speak ++ ex_wire_speak.take 5)

/-- What the walk over `ex_walk_stream_cut` returns. -/
def ex_walk_cut :
    Bool × mrcp_parser_t × apt_text_stream_t × List mrcp_stream_result_e :=
  walk_value (false, mrcp_parser_create, ex_walk_stream_cut, [])
    (mrcp_stream_walk ex_externals ex_handler 3 mrcp_parser_create ex_walk_stream_cut [])

/-- The externals of the small wire format with a start-line tokenizer that fails on every
input without moving the cursor. -/
def ex_externals_stuck : mrcp_externals_t :=
  { ex_externals with mrcp_start_line_parse := fun start_line stream => (false, start_line, stream) }

/-- The states the walk over `ex_walk_stream` runs the parser from: the parser as
created at the start of the stream, and the parser the first run leaves, behind
the first message. -/
def ex_walk_states (parser : mrcp_parser_t) (stream : apt_text_stream_t) : Prop :=
  (parser = mrcp_parser_create ∧ stream = ex_walk_stream) ∨
    (parser = ex_walk_first.2.1 ∧ stream = ex_walk_first.2.2)

/-- A header tokenizer that keeps the cursor within bounds: it reads one byte and yields
the header `Content-Length: 18446744073709551615`, the largest `apr_size_t`. -/
def ex_header_parse_max (header : mrcp_message_header_t) (stream : apt_text_stream_t) :
    Bool × mrcp_message_header_t × apt_text_stream_t :=
  match stream.pos with
  | none => (false, header, stream)
  | some offset =>
    if offset + 1 ≤ stream.length then
      (true, ex_header 18446744073709551615, { stream with pos := some (offset + 1) })
    else
      (false, header, { stream with pos := some stream.length })

/-- The externals of the small wire format with the header tokenizer
`ex_header_parse_max`. -/
def ex_externals_max : mrcp_externals_t :=
  { ex_externals with mrcp_message_header_parse := ex_header_parse_max }

/-! ## Arithmetic and memory lemmas -/

theorem size_sub_of_le {a b : Nat} (h : b ≤ a) : size_sub a b = a - b := by
  simp [size_sub, h]

theorem size_add_of_lt {a b : Nat} (h : a + b < APR_SIZE_MOD) : size_add a b = a + b := by
  unfold size_add
  exact Nat.mod_eq_of_lt h

theorem apr_palloc_length (pool : Nat → Nat) (n : Nat) : (apr_palloc pool n).length = n := by
  simp [apr_palloc]

theorem apr_palloc_get (pool : Nat → Nat) (n i : Nat) (h : i < n) :
    (apr_palloc pool n)[i]? = some (pool i) := by
  simp [apr_palloc, List.getElem?_map, List.getElem?_range h]

theorem memcpy_of_le {dst src : List Nat} {doff soff n : Nat}
    (hd : doff + n ≤ dst.length) (hs : soff + n ≤ src.length) :
    memcpy dst doff src soff n =
      some (dst.take doff ++ (src.drop soff).take n ++ dst.drop (doff + n)) := by
  simp [memcpy, hd, hs]

theorem memcpy_length {dst src r : List Nat} {doff soff n : Nat}
    (h : memcpy dst doff src soff n = some r) : r.length = dst.length := by
  unfold memcpy at h
  split at h
  · rename_i hb
    cases h
    simp
    omega
  · cases h

theorem memcpy_bounds {dst src r : List Nat} {doff soff n : Nat}
    (h : memcpy dst doff src soff n = some r) :
    doff + n ≤ dst.length ∧ soff + n ≤ src.length := by
  unfold memcpy at h
  split at h
  · assumption
  · cases h

theorem memcpy_get_before {dst src r : List Nat} {doff soff n : Nat}
    (h : memcpy dst doff src soff n = some r) (i : Nat) (hi : i < doff) :
    r[i]? = dst[i]? := by
  have hb := memcpy_bounds h
  rw [memcpy_of_le hb.1 hb.2] at h
  cases h
  rw [List.append_assoc, List.getElem?_append_left (by simp; omega)]
  simp [List.getElem?_take, hi]

theorem memcpy_get_copied {dst src r : List Nat} {doff soff n : Nat}
    (h : memcpy dst doff src soff n = some r) (i : Nat) (hi : i < n) :
    r[doff + i]? = src[soff + i]? := by
  have hb := memcpy_bounds h
  rw [memcpy_of_le hb.1 hb.2] at h
  cases h
  rw [List.append_assoc, List.getElem?_append_right (by simp)]
  have h1 : (List.take doff dst).length = doff := by simp; omega
  rw [h1, Nat.add_sub_cancel_left, List.getElem?_append_left (by simp; omega)]
  simp [List.getElem?_take, hi]

theorem memcpy_get_after {dst src r : List Nat} {doff soff n : Nat}
    (h : memcpy dst doff src soff n = some r) (i : Nat) (hi : doff + n ≤ i) :
    r[i]? = dst[i]? := by
  have hb := memcpy_bounds h
  rw [memcpy_of_le hb.1 hb.2] at h
  cases h
  have h1 : (List.take doff dst).length = doff := by simp; omega
  have h2 : (List.take n (List.drop soff src)).length = n := by simp; omega
  rw [List.getElem?_append_right (by simp; omega)]
  simp only [List.length_append, h1, h2, List.getElem?_drop]
  congr 1
  omega

/-! ## Body transfer -/

/-- What `mrcp_message_body_read` returns on a message with body buffer and generic
header, in terms of the number of bytes it moves. -/
theorem mrcp_message_body_read_eq (message : mrcp_message_t) (stream : apt_text_stream_t)
    (body_buf : List Nat) (generic_header : mrcp_generic_header_t) (offset : Nat)
    (hbuf : message.body.buf = some body_buf)
    (hgh : mrcp_generic_header_get message = some generic_header)
    (hlen : message.body.length ≤ generic_header.content_length)
    (hcap : generic_header.content_length ≤ body_buf.length)
    (hpos : stream.pos = some offset) (hin : offset ≤ stream.length)
    (hmem : stream.length ≤ stream.buf.length) :
    ∃ body_buf1 : List Nat,
      memcpy body_buf message.body.length stream.buf offset
          (min (generic_header.content_length - message.body.length)
            (stream.length - offset)) = some body_buf1 ∧
      mrcp_message_body_read message stream =
        some
          (if message.body.length +
                min (generic_header.content_length - message.body.length)
                  (stream.length - offset) = generic_header.content_length
            then MRCP_STREAM_MESSAGE_COMPLETE else MRCP_STREAM_MESSAGE_TRUNCATED,
           { message with
             body :=
               { buf := some body_buf1
                 length := message.body.length +
                   min (generic_header.content_length - message.body.length)
                     (stream.length - offset) } },
           { stream with
             pos := some (offset +
               min (generic_header.content_length - message.body.length)
                 (stream.length - offset)) }) := by
  unfold mrcp_message_body_read
  rw [hbuf]
  simp only [hgh, hpos, size_sub_of_le hin, size_sub_of_le hlen]
  by_cases hc : generic_header.content_length - message.body.length > stream.length - offset
  · have hmin : min (generic_header.content_length - message.body.length)
        (stream.length - offset) = stream.length - offset := by omega
    rw [hmin]
    obtain ⟨r, hm⟩ : ∃ r, memcpy body_buf message.body.length stream.buf offset
        (stream.length - offset) = some r :=
      ⟨_, memcpy_of_le (by omega) (by omega)⟩
    have hne : ¬ (message.body.length + (stream.length - offset) =
        generic_header.content_length) := by omega
    exact ⟨r, hm, by simp [hc, hm, hne]⟩
  · have hmin : min (generic_header.content_length - message.body.length)
        (stream.length - offset) = generic_header.content_length - message.body.length := by
      omega
    rw [hmin]
    obtain ⟨r, hm⟩ : ∃ r, memcpy body_buf message.body.length stream.buf offset
        (generic_header.content_length - message.body.length) = some r :=
      ⟨_, memcpy_of_le (by omega) (by omega)⟩
    have heq : message.body.length + (generic_header.content_length - message.body.length) =
        generic_header.content_length := by omega
    exact ⟨r, hm, by simp [hc, hm, heq]⟩

/-- C4. Postcondition of `mrcp_message_body_read`: on a message with an allocated body
buffer (large enough for `content_length` bytes) and `body.length ≤ content_length`,
and a stream whose cursor is within bounds, the call copies exactly
`n = min (content_length - body.length) remaining` bytes from the stream at the
cursor to the body at offset `body.length`, advances `body.length` and the cursor
by `n`, leaves the earlier body bytes and the stream contents unchanged, and
returns Complete iff the resulting `body.length` equals `content_length`, else
Truncated. -/
theorem mrcp_message_body_read_post (message : mrcp_message_t) (stream : apt_text_stream_t)
    (body_buf : List Nat) (generic_header : mrcp_generic_header_t) (offset : Nat)
    (hbuf : message.body.buf = some body_buf)
    (hgh : mrcp_generic_header_get message = some generic_header)
    (hlen : message.body.length ≤ generic_header.content_length)
    (hcap : generic_header.content_length ≤ body_buf.length)
    (hpos : stream.pos = some offset) (hin : offset ≤ stream.length)
    (hmem : stream.length ≤ stream.buf.length) :
    ∃ body_buf1 : List Nat,
      mrcp_message_body_read message stream =
        some
          (if message.body.length +
                min (generic_header.content_length - message.body.length)
                  (stream.length - offset) = generic_header.content_length
            then MRCP_STREAM_MESSAGE_COMPLETE else MRCP_STREAM_MESSAGE_TRUNCATED,
           { message with
             body :=
               { buf := some body_buf1
                 length := message.body.length +
                   min (generic_header.content_length - message.body.length)
                     (stream.length - offset) } },
           { stream with
             pos := some (offset +
               min (generic_header.content_length - message.body.length)
                 (stream.length - offset)) }) ∧
      body_buf1.length = body_buf.length ∧
      (∀ i, i < min (generic_header.content_length - message.body.length)
            (stream.length - offset) →
          body_buf1[message.body.length + i]? = stream.buf[offset + i]?) ∧
      (∀ i, i < message.body.length → body_buf1[i]? = body_buf[i]?) := by
  obtain ⟨r, hm, hr⟩ := mrcp_message_body_read_eq message stream body_buf generic_header
    offset hbuf hgh hlen hcap hpos hin hmem
  exact ⟨r, hr, memcpy_length hm, fun i hi => memcpy_get_copied hm i hi,
    fun i hi => memcpy_get_before hm i hi⟩

/-- Instance of C4: reading the two bytes `lo` into a body that already holds `hel`
of five declared bytes. -/
theorem mrcp_message_body_read_post_witness :
    ∃ body_buf1 : List Nat,
      mrcp_message_body_read ex_message_hel ex_stream_lo =
        some (MRCP_STREAM_MESSAGE_COMPLETE,
          { ex_message_hel with body := { buf := some body_buf1, length := 5 } },
          { ex_stream_lo with pos := some 2 }) ∧
      body_buf1.length = 6 ∧
      (∀ i, i < 2 → body_buf1[3 + i]? = [108, 111][i]?) ∧
      (∀ i, i < 3 → body_buf1[i]? = [104, 101, 108, 0, 0, 0][i]?) := by
  have h := mrcp_message_body_read_post ex_message_hel ex_stream_lo
    [104, 101, 108, 0, 0, 0] { content_length := 5, content_type := [] } 0
    rfl rfl (by decide) (by decide) rfl (by decide) (by decide)
  obtain ⟨b, h1, h2, h3, h4⟩ := h
  refine ⟨b, ?_, h2, ?_, h4⟩
  · simpa [ex_message_hel, ex_stream_lo] using h1
  · intro i hi
    have := h3 i (by simpa [ex_message_hel, ex_stream_lo] using hi)
    simpa [ex_message_hel, ex_stream_lo] using this

/-- C5. Postcondition of `mrcp_message_body_write`: on a message with a generic header,
a body buffer holding `content_length` bytes and `body.length ≤ content_length`,
and a stream whose cursor is within bounds, the call copies exactly
`n = min (content_length - body.length) remaining` bytes from the body at offset
`body.length` into the stream at the cursor, advances `body.length` and the cursor
by `n`, leaves the stream bytes outside `[pos, pos + n)` unchanged, and returns
Complete iff the resulting `body.length` equals `content_length`, else Truncated. -/
theorem mrcp_message_body_write_post (message : mrcp_message_t) (stream : apt_text_stream_t)
    (body_buf : List Nat) (generic_header : mrcp_generic_header_t) (offset : Nat)
    (hgh : mrcp_generic_header_get message = some generic_header)
    (hbuf : message.body.buf = some body_buf)
    (hlen : message.body.length ≤ generic_header.content_length)
    (hcap : generic_header.content_length ≤ body_buf.length)
    (hpos : stream.pos = some offset) (hin : offset ≤ stream.length)
    (hmem : stream.length ≤ stream.buf.length) :
    ∃ stream_buf1 : List Nat,
      mrcp_message_body_write message stream =
        some
          (if message.body.length +
                min (generic_header.content_length - message.body.length)
                  (stream.length - offset) = generic_header.content_length
            then MRCP_STREAM_MESSAGE_COMPLETE else MRCP_STREAM_MESSAGE_TRUNCATED,
           { message with
             body :=
               { message.body with
                 length := message.body.length +
                   min (generic_header.content_length - message.body.length)
                     (stream.length - offset) } },
           { stream with
             buf := stream_buf1
             pos := some (offset +
               min (generic_header.content_length - message.body.length)
                 (stream.length - offset)) }) ∧
      stream_buf1.length = stream.buf.length ∧
      (∀ i, i < min (generic_header.content_length - message.body.length)
            (stream.length - offset) →
          stream_buf1[offset + i]? = body_buf[message.body.length + i]?) ∧
      (∀ i, i < offset → stream_buf1[i]? = stream.buf[i]?) ∧
      (∀ i, offset + min (generic_header.content_length - message.body.length)
            (stream.length - offset) ≤ i → stream_buf1[i]? = stream.buf[i]?) := by
  unfold mrcp_message_body_write
  simp only [hgh]
  by_cases hlt : message.body.length < generic_header.content_length
  · simp only [hlt, if_true, hbuf, hpos, size_sub_of_le hin, size_sub_of_le hlen]
    by_cases hc : generic_header.content_length - message.body.length > stream.length - offset
    · have hmin : min (generic_header.content_length - message.body.length)
          (stream.length - offset) = stream.length - offset := by omega
      rw [hmin]
      obtain ⟨r, hm⟩ : ∃ r, memcpy stream.buf offset body_buf message.body.length
          (stream.length - offset) = some r :=
        ⟨_, memcpy_of_le (by omega) (by omega)⟩
      have hne : ¬ (message.body.length + (stream.length - offset) =
          generic_header.content_length) := by omega
      exact ⟨r, by simp [hc, hm, hne], memcpy_length hm,
        fun i hi => memcpy_get_copied hm i hi, fun i hi => memcpy_get_before hm i hi,
        fun i hi => memcpy_get_after hm i hi⟩
    · have hmin : min (generic_header.content_length - message.body.length)
          (stream.length - offset) = generic_header.content_length - message.body.length := by
        omega
      rw [hmin]
      obtain ⟨r, hm⟩ : ∃ r, memcpy stream.buf offset body_buf message.body.length
          (generic_header.content_length - message.body.length) = some r :=
        ⟨_, memcpy_of_le (by omega) (by omega)⟩
      have heq : message.body.length +
          (generic_header.content_length - message.body.length) =
          generic_header.content_length := by omega
      exact ⟨r, by simp [hc, hm, heq], memcpy_length hm,
        fun i hi => memcpy_get_copied hm i hi, fun i hi => memcpy_get_before hm i hi,
        fun i hi => memcpy_get_after hm i hi⟩
  · have heq : generic_header.content_length = message.body.length := by omega
    have hmin : min (generic_header.content_length - message.body.length)
        (stream.length - offset) = 0 := by omega
    rw [hmin]
    refine ⟨stream.buf, ?_, rfl, ?_, fun i _ => rfl, fun i _ => rfl⟩
    · simp only [Nat.add_zero, heq, if_true, ← hpos, Nat.lt_irrefl, if_false]
    · intro i hi
      omega

/-- Instance of C5: writing the remaining two bytes `lo` of the body `hello` into an
output stream with three free bytes. -/
theorem mrcp_message_body_write_post_witness :
    ∃ stream_buf1 : List Nat,
      mrcp_message_body_write ex_message_hello3 ex_stream_out4 =
        some (MRCP_STREAM_MESSAGE_COMPLETE,
          { ex_message_hello3 with body := { ex_message_hello3.body with length := 5 } },
          { ex_stream_out4 with buf := stream_buf1, pos := some 3 }) ∧
      stream_buf1.length = 4 ∧
      (∀ i, i < 2 → stream_buf1[1 + i]? = [104, 101, 108, 108, 111][3 + i]?) ∧
      (∀ i, i < 1 → stream_buf1[i]? = [7, 0, 0, 9][i]?) ∧
      (∀ i, 3 ≤ i → stream_buf1[i]? = [7, 0, 0, 9][i]?) := by
  have h := mrcp_message_body_write_post ex_message_hello3 ex_stream_out4
    [104, 101, 108, 108, 111] { content_length := 5, content_type := [] } 1
    rfl rfl (by decide) (by decide) rfl (by decide) (by decide)
  obtain ⟨b, h1, h2, h3, h4, h5⟩ := h
  refine ⟨b, ?_, h2, ?_, h4, ?_⟩
  · simpa [ex_message_hello3, ex_stream_out4] using h1
  · intro i hi
    have := h3 i (by simpa [ex_message_hello3, ex_stream_out4] using hi)
    simpa [ex_message_hello3, ex_stream_out4] using this
  · intro i hi
    have := h5 i (by simpa [ex_message_hello3, ex_stream_out4] using hi)
    simpa [ex_message_hello3, ex_stream_out4] using this

/-! ## The runs in terms of their stages -/

/-- The new-message part of `mrcp_parser_run`, stage by stage. -/
theorem mrcp_parser_run_new_eq (E : mrcp_externals_t) (parser : mrcp_parser_t)
    (stream : apt_text_stream_t) :
    mrcp_parser_run_new E parser stream =
      if (parser_stage_start_line E parser stream).1 = false then
        some (mrcp_parser_break
          { parser with
            message := some (parser_stage_start_line E parser stream).2.1
            pos := stream.pos }
          (parser_stage_start_line E parser stream).2.2)
      else if (parser_stage_resourcify E parser stream).1 = false then
        some (MRCP_STREAM_MESSAGE_INVALID,
          { parser with
            message := some (parser_stage_resourcify E parser stream).2.1
            pos := stream.pos },
          (parser_stage_resourcify E parser stream).2.2)
      else if (parser_stage_header E parser stream).1 = false then
        some (mrcp_parser_break
          { parser with
            message := some (parser_stage_header E parser stream).2.1
            pos := stream.pos }
          (parser_stage_header E parser stream).2.2)
      else
        match mrcp_message_body_parse E.pool (parser_stage_header E parser stream).2.1
            (parser_stage_header E parser stream).2.2 with
        | none => none
        | some r =>
          some (r.1,
            { parser with result := r.1, message := some r.2.1, pos := stream.pos }, r.2.2) := by
  unfold mrcp_parser_run_new parser_stage_header parser_stage_resourcify
    parser_stage_channel_id parser_stage_start_line parser_new_message
  by_cases hv : (E.mrcp_start_line_parse mrcp_message_create.start_line stream).2.1.version =
      MRCP_VERSION_2
  · simp only [hv, if_true]
  · simp only [hv, if_false]

/-- A run of the parser starts a new message unless a message is held and the stored
result is Truncated. -/
theorem mrcp_parser_run_of_new (E : mrcp_externals_t) (parser : mrcp_parser_t)
    (stream : apt_text_stream_t)
    (hnew : parser.message = none ∨ parser.result ≠ MRCP_STREAM_MESSAGE_TRUNCATED) :
    mrcp_parser_run E parser stream = mrcp_parser_run_new E parser stream := by
  unfold mrcp_parser_run
  rcases hnew with h | h
  · simp [h]
  · cases hm : parser.message <;> simp [h]

/-! ## Parser truncation -/

/-- C2. Parser truncation invariant: when `mrcp_parser_run` starts a new message and
the start-line tokenizer fails with the stream at its end, or the start line and
the resource lookup succeed and the header tokenizer fails with the stream at its
end, the run returns Truncated, the stream cursor is the one the run was entered
with, the stored result is Truncated and `mrcp_parser_message_get` returns no
message. -/
theorem mrcp_parser_run_truncation (E : mrcp_externals_t) (parser : mrcp_parser_t)
    (stream : apt_text_stream_t)
    (hnew : parser.message = none ∨ parser.result ≠ MRCP_STREAM_MESSAGE_TRUNCATED)
    (hfail :
      ((parser_stage_start_line E parser stream).1 = false ∧
        apt_text_is_eos (parser_stage_start_line E parser stream).2.2 = true) ∨
      ((parser_stage_start_line E parser stream).1 = true ∧
        (parser_stage_resourcify E parser stream).1 = true ∧
        (parser_stage_header E parser stream).1 = false ∧
        apt_text_is_eos (parser_stage_header E parser stream).2.2 = true)) :
    ∃ parser1 stream1,
      mrcp_parser_run E parser stream =
        some (MRCP_STREAM_MESSAGE_TRUNCATED, parser1, stream1) ∧
      stream1.pos = stream.pos ∧
      parser1.result = MRCP_STREAM_MESSAGE_TRUNCATED ∧
      mrcp_parser_message_get parser1 = none := by
  rw [mrcp_parser_run_of_new E parser stream hnew, mrcp_parser_run_new_eq]
  rcases hfail with ⟨h1, h2⟩ | ⟨h1, h2, h3, h4⟩
  · simp only [h1, if_true, mrcp_parser_break, h2]
    exact ⟨_, _, rfl, rfl, rfl, rfl⟩
  · simp only [h1, h2, h3, if_true, mrcp_parser_break, h4]
    exact ⟨_, _, rfl, rfl, rfl, rfl⟩

/-- Instance of C2: the first two bytes of a message are all the input; the
start-line tokenizer runs out of input. -/
theorem mrcp_parser_run_truncation_witness :
    ∃ parser1 stream1,
      mrcp_parser_run ex_externals mrcp_parser_create (ex_stream_in [2, 83]) =
        some (MRCP_STREAM_MESSAGE_TRUNCATED, parser1, stream1) ∧
      stream1.pos = (ex_stream_in [2, 83]).pos ∧
      parser1.result = MRCP_STREAM_MESSAGE_TRUNCATED ∧
      mrcp_parser_message_get parser1 = none :=
  mrcp_parser_run_truncation ex_externals mrcp_parser_create (ex_stream_in [2, 83])
    (Or.inl rfl) (Or.inl ⟨by decide, by decide⟩)

/-! ## Generator truncation -/

/-- C3, the code at a failing input: the generator as created, with a message set,
runs on an output stream of two bytes with the cursor at offset 0.  The
start-line generation fails at the end of the stream and the run returns
Truncated, but the cursor it leaves is `NULL` (the `pos` the generator was
created with), not the cursor at entry. -/
theorem mrcp_generator_run_truncation_cursor :
    ∃ generator1 stream1,
      mrcp_generator_run ex_externals ex_generator_speak (ex_stream_out 2) =
        some (MRCP_STREAM_MESSAGE_TRUNCATED, generator1, stream1) ∧
      (ex_stream_out 2).pos = some 0 ∧
      stream1.pos = none ∧
      generator1.pos = none :=
  ⟨_, _, rfl, rfl, rfl, rfl⟩

/-! ## Stored parser result -/

/-- C10, the code at a failing input: a parser whose previous run was Truncated in the
start line parses a request that names an unknown resource.  The run returns
Invalid while the stored result stays Truncated and the message stays set, and
the next run takes the continuation branch: it returns Complete on any stream
without consuming a byte. -/
theorem mrcp_parser_run_stale_result :
    ∃ parser1 stream1 parser2 stream2 parser3 stream3,
      mrcp_parser_run ex_externals mrcp_parser_create (ex_stream_in [2, 83]) =
        some (MRCP_STREAM_MESSAGE_TRUNCATED, parser1, stream1) ∧
      mrcp_parser_run ex_externals parser1 (ex_stream_in ex_wire_bogus) =
        some (MRCP_STREAM_MESSAGE_INVALID, parser2, stream2) ∧
      parser2.result = MRCP_STREAM_MESSAGE_TRUNCATED ∧
      parser2.message ≠ none ∧
      mrcp_parser_run ex_externals parser2 (ex_stream_in ex_wire_speak) =
        some (MRCP_STREAM_MESSAGE_COMPLETE, parser3, stream3) ∧
      stream3.pos = some 0 :=
  ⟨_, _, _, _, _, _, rfl, rfl, rfl, by decide, rfl, rfl⟩

/-! ## Content length passed to the finalization -/

/-- A run of the generator that does not resume a body, stage by stage. -/
theorem mrcp_generator_run_new_eq (E : mrcp_externals_t) (generator : mrcp_generator_t)
    (message : mrcp_message_t) (stream : apt_text_stream_t)
    (hm : generator.message = some message)
    (hres : generator.result ≠ MRCP_STREAM_MESSAGE_TRUNCATED) :
    mrcp_generator_run E generator stream =
      if (generator_stage_resourcify E message).1 = false then
        some (MRCP_STREAM_MESSAGE_INVALID,
          { generator with message := some (generator_stage_resourcify E message).2 }, stream)
      else if (generator_stage_validate E message).1 = false then
        some (MRCP_STREAM_MESSAGE_INVALID,
          { generator with message := some (generator_stage_validate E message).2 }, stream)
      else if (generator_stage_start_line E message stream).1 = false then
        some (mrcp_generator_break
          { generator with message := some (generator_stage_start_line E message stream).2.1 }
          (generator_stage_start_line E message stream).2.2)
      else if (generator_stage_header E message stream).1 = false then
        some (mrcp_generator_break
          { generator with message := some (generator_stage_header E message stream).2.1 }
          (generator_stage_header E message stream).2.2)
      else
        match mrcp_message_body_generate (generator_stage_finalize E message stream).1
            (generator_stage_finalize E message stream).2 with
        | none => none
        | some r =>
          some (r.1, { generator with result := r.1, message := some r.2.1 }, r.2.2) := by
  unfold mrcp_generator_run generator_stage_finalize generator_stage_header
    generator_stage_channel_id generator_stage_start_line generator_stage_validate
    generator_stage_resourcify
  simp only [hm, hres, if_false]
  by_cases hv : (E.mrcp_start_line_generate
      (E.mrcp_message_validate (E.mrcp_message_resourcify_by_id message).2).2.start_line
      stream).2.1.version = MRCP_VERSION_2
  · simp only [hv, if_true]
  · simp only [hv, if_false]

/-- C8, a message the claim fails on: the body holds five bytes under the header
`Content-Length: 3`.  The run returns Complete, the finalization is passed the
body length 5, and the run writes 3 body bytes after the headers. -/
theorem mrcp_generator_run_length_mismatch :
    ∃ generator1 stream1,
      mrcp_generator_run ex_externals ex_generator_mismatch (ex_stream_out 16) =
        some (MRCP_STREAM_MESSAGE_COMPLETE, generator1, stream1) ∧
      (generator_stage_header ex_externals ex_message_mismatch
        (ex_stream_out 16)).2.1.body.length = 5 ∧
      stream_advance
        (generator_stage_finalize ex_externals ex_message_mismatch (ex_stream_out 16)).2
        stream1 = 3 ∧
      stream_advance
        (generator_stage_finalize ex_externals ex_message_mismatch (ex_stream_out 16)).2
        stream1 ≠
      (generator_stage_header ex_externals ex_message_mismatch
        (ex_stream_out 16)).2.1.body.length :=
  ⟨_, _, rfl, rfl, rfl, by decide⟩

/-- What a Complete `mrcp_message_body_generate` moves: the cursor advances by the content
length the body phase acts on. -/
theorem mrcp_message_body_generate_advance (message : mrcp_message_t)
    (stream : apt_text_stream_t) (message1 : mrcp_message_t) (stream1 : apt_text_stream_t)
    (h : mrcp_message_body_generate message stream =
      some (MRCP_STREAM_MESSAGE_COMPLETE, message1, stream1)) :
    stream_advance stream stream1 = message_content_length message := by
  have hself : ∀ s : apt_text_stream_t, stream_advance s s = 0 := by
    intro s
    unfold stream_advance
    cases s.pos <;> simp
  unfold mrcp_message_body_generate at h
  unfold message_content_length
  by_cases hp : mrcp_generic_header_property_check message GENERIC_HEADER_CONTENT_LENGTH = true
  · simp only [hp, if_true] at h ⊢
    cases hg : mrcp_generic_header_get message with
    | none =>
      simp only [hg] at h
      cases h
      exact hself _
    | some g =>
      simp only [hg] at h
      by_cases hz : g.content_length = 0
      · simp only [hz, ne_eq, not_true_eq_false, if_false] at h
        cases h
        simp [hself, hz]
      · simp only [hz, ne_eq, not_false_eq_true, if_true] at h
        unfold mrcp_message_body_write at h
        have hg1 : mrcp_generic_header_get
            { message with body := { message.body with length := 0 } } = some g := hg
        simp only [hg1, Nat.pos_of_ne_zero hz, if_true,
          size_sub_of_le (Nat.zero_le g.content_length), Nat.sub_zero] at h
        cases hb : message.body.buf with
        | none => simp [hb] at h
        | some b =>
          cases ho : stream.pos with
          | none => simp [hb, ho] at h
          | some off =>
            simp only [hb, ho] at h
            by_cases hc : g.content_length > size_sub stream.length off
            · cases hmc : memcpy stream.buf off b 0 (size_sub stream.length off) with
              | none => simp [hc, hmc] at h
              | some r => simp [hc, hmc] at h
            · cases hmc : memcpy stream.buf off b 0 g.content_length with
              | none => simp [hc, hmc] at h
              | some r =>
                simp [hc, hmc] at h
                obtain ⟨_, hs⟩ := h
                subst hs
                simp [stream_advance, ho]
  · simp only [hp] at h ⊢
    simp only [Bool.false_eq_true, if_false, Option.some.injEq, Prod.mk.injEq, true_and] at h
    obtain ⟨_, hs⟩ := h
    subst hs
    simp [hself]

/-- C8, amended. Content-length exactness for consistent messages: when a run that does
not resume a body returns Complete, and the message as the finalization sees it
has `body.length` equal to the content length the body phase acts on, the body
length passed to `mrcp_start_line_finalize` equals the number of bytes the run
writes to the stream after the finalization. -/
theorem mrcp_generator_run_content_length (E : mrcp_externals_t)
    (generator : mrcp_generator_t) (message : mrcp_message_t) (stream : apt_text_stream_t)
    (generator1 : mrcp_generator_t) (stream1 : apt_text_stream_t)
    (hm : generator.message = some message)
    (hres : generator.result ≠ MRCP_STREAM_MESSAGE_TRUNCATED)
    (hcons : message_content_length (generator_stage_finalize E message stream).1 =
      (generator_stage_finalize E message stream).1.body.length)
    (hrun : mrcp_generator_run E generator stream =
      some (MRCP_STREAM_MESSAGE_COMPLETE, generator1, stream1)) :
    stream_advance (generator_stage_finalize E message stream).2 stream1 =
      (generator_stage_header E message stream).2.1.body.length := by
  rw [mrcp_generator_run_new_eq E generator message stream hm hres] at hrun
  have hbody : (generator_stage_finalize E message stream).1.body =
      (generator_stage_header E message stream).2.1.body := rfl
  rw [← hbody, ← hcons]
  split at hrun
  · simp at hrun
  · split at hrun
    · simp at hrun
    · split at hrun
      · unfold mrcp_generator_break at hrun
        split at hrun <;> simp at hrun
      · split at hrun
        · unfold mrcp_generator_break at hrun
          split at hrun <;> simp at hrun
        · split at hrun
          · simp at hrun
          · rename_i r hr
            simp only [Option.some.injEq, Prod.mk.injEq] at hrun
            obtain ⟨h1, _, h3⟩ := hrun
            have hr1 : r = (MRCP_STREAM_MESSAGE_COMPLETE, r.2.1, stream1) := by
              rw [← h1, ← h3]
            rw [hr1] at hr
            exact mrcp_message_body_generate_advance _ _ _ _ hr

/-- Instance of C8 amended: `ex_message_speak` carries five body bytes under
`Content-Length: 5`. -/
theorem mrcp_generator_run_content_length_witness :
    ∃ generator1 stream1,
      mrcp_generator_run ex_externals ex_generator_speak (ex_stream_out 12) =
        some (MRCP_STREAM_MESSAGE_COMPLETE, generator1, stream1) ∧
      stream_advance
        (generator_stage_finalize ex_externals ex_message_speak (ex_stream_out 12)).2
        stream1 = 5 :=
  ⟨_, _, rfl,
    mrcp_generator_run_content_length ex_externals ex_generator_speak ex_message_speak
      (ex_stream_out 12) _ _ rfl (by decide) rfl rfl⟩

/-! ## Position safety of the parser -/

theorem stream_ok_iff (stream : apt_text_stream_t) :
    stream_ok stream ↔
      ∃ offset, stream.pos = some offset ∧ offset ≤ stream.length ∧
        stream.length ≤ stream.buf.length := by
  unfold stream_ok
  cases stream.pos <;> simp

theorem body_ready_of_no_buf (message : mrcp_message_t) (h : message.body.buf = none) :
    body_ready message := by
  unfold body_ready
  simp [h]

/-- A body read on a ready message and a stream within bounds returns, and keeps both. -/
theorem mrcp_message_body_read_ok (message : mrcp_message_t) (stream : apt_text_stream_t)
    (hm : body_ready message) (hs : stream_ok stream) :
    ∃ r, mrcp_message_body_read message stream = some r ∧ stream_ok r.2.2 ∧
      r.2.2.length = stream.length ∧ body_ready r.2.1 := by
  obtain ⟨offset, hpos, hin, hmem⟩ := (stream_ok_iff stream).1 hs
  cases hb : message.body.buf with
  | none =>
    refine ⟨(MRCP_STREAM_MESSAGE_COMPLETE, message, stream), ?_, hs, rfl, hm⟩
    unfold mrcp_message_body_read
    simp [hb]
  | some body_buf =>
    cases hg : mrcp_generic_header_get message with
    | none =>
      unfold body_ready at hm
      simp [hb, hg] at hm
    | some g =>
      have hm1 : message.body.length ≤ g.content_length ∧ g.content_length ≤ body_buf.length := by
        unfold body_ready at hm
        simpa [hb, hg] using hm
      obtain ⟨r, hmc, hr⟩ := mrcp_message_body_read_eq message stream body_buf g offset hb hg
        hm1.1 hm1.2 hpos hin hmem
      refine ⟨_, hr, ?_, rfl, ?_⟩
      · rw [stream_ok_iff]
        exact ⟨_, rfl, by simp only; omega, hmem⟩
      · have hl := memcpy_length hmc
        unfold body_ready
        have hg1 : mrcp_generic_header_get
            { message with
              body :=
                { buf := some r
                  length := message.body.length +
                    min (g.content_length - message.body.length) (stream.length - offset) } } =
            some g := hg
        simp only [hg1]
        omega

/-- A body parse on a stream within bounds returns, and leaves a ready message, when the
size of the allocation does not wrap. -/
theorem mrcp_message_body_parse_ok (pool : Nat → Nat) (message : mrcp_message_t)
    (stream : apt_text_stream_t)
    (hm : message.body.buf = none) (hs : stream_ok stream)
    (hcl : ∀ g, mrcp_generic_header_get message = some g →
      g.content_length + 1 < APR_SIZE_MOD) :
    ∃ r, mrcp_message_body_parse pool message stream = some r ∧ stream_ok r.2.2 ∧
      r.2.2.length = stream.length ∧ body_ready r.2.1 := by
  unfold mrcp_message_body_parse
  by_cases hp : mrcp_generic_header_property_check message GENERIC_HEADER_CONTENT_LENGTH = true
  · simp only [hp, if_true]
    cases hg : mrcp_generic_header_get message with
    | none => exact ⟨_, rfl, hs, rfl, body_ready_of_no_buf _ hm⟩
    | some g =>
      simp only
      by_cases hz : g.content_length = 0
      · simp only [hz, ne_eq, not_true_eq_false, if_false]
        exact ⟨_, rfl, hs, rfl, body_ready_of_no_buf _ hm⟩
      · simp only [hz, ne_eq, not_false_eq_true, if_true]
        apply mrcp_message_body_read_ok _ _ _ hs
        unfold body_ready
        have hg1 : mrcp_generic_header_get
            { message with
              body :=
                { buf := some (apr_palloc pool (size_add g.content_length 1)), length := 0 } } =
            some g := hg
        simp only [hg1]
        rw [size_add_of_lt (hcl g hg)]
        simp [apr_palloc_length]
  · simp only [hp]
    exact ⟨_, rfl, hs, rfl, body_ready_of_no_buf _ hm⟩

theorem parser_stage_start_line_ok (E : mrcp_externals_t) (parser : mrcp_parser_t)
    (stream : apt_text_stream_t) (hsl : tokenizer_ok E.mrcp_start_line_parse)
    (hs : stream_ok stream) :
    stream_ok (parser_stage_start_line E parser stream).2.2 ∧
      (parser_stage_start_line E parser stream).2.2.length = stream.length ∧
      (parser_stage_start_line E parser stream).2.1.body.buf = none :=
  ⟨(hsl _ stream hs).1, (hsl _ stream hs).2, rfl⟩

theorem parser_stage_channel_id_ok (E : mrcp_externals_t) (parser : mrcp_parser_t)
    (stream : apt_text_stream_t) (hsl : tokenizer_ok E.mrcp_start_line_parse)
    (hch : tokenizer_ok E.mrcp_channel_id_parse) (hs : stream_ok stream) :
    stream_ok (parser_stage_channel_id E parser stream).2 ∧
      (parser_stage_channel_id E parser stream).2.length = stream.length ∧
      (parser_stage_channel_id E parser stream).1.body.buf = none := by
  obtain ⟨h1, h2, h3⟩ := parser_stage_start_line_ok E parser stream hsl hs
  unfold parser_stage_channel_id
  simp only
  split
  · exact ⟨(hch _ _ h1).1, (hch _ _ h1).2.trans h2, h3⟩
  · exact ⟨h1, h2, h3⟩

theorem parser_stage_resourcify_ok (E : mrcp_externals_t) (parser : mrcp_parser_t)
    (stream : apt_text_stream_t) (hsl : tokenizer_ok E.mrcp_start_line_parse)
    (hch : tokenizer_ok E.mrcp_channel_id_parse)
    (hrs : ∀ m, (E.mrcp_message_resourcify_by_name m).2.body = m.body)
    (hs : stream_ok stream) :
    stream_ok (parser_stage_resourcify E parser stream).2.2 ∧
      (parser_stage_resourcify E parser stream).2.2.length = stream.length ∧
      (parser_stage_resourcify E parser stream).2.1.body.buf = none := by
  obtain ⟨h1, h2, h3⟩ := parser_stage_channel_id_ok E parser stream hsl hch hs
  refine ⟨h1, h2, ?_⟩
  show (E.mrcp_message_resourcify_by_name _).2.body.buf = none
  rw [hrs]
  exact h3

theorem parser_stage_header_ok (E : mrcp_externals_t) (parser : mrcp_parser_t)
    (stream : apt_text_stream_t) (hsl : tokenizer_ok E.mrcp_start_line_parse)
    (hch : tokenizer_ok E.mrcp_channel_id_parse)
    (hhd : tokenizer_ok E.mrcp_message_header_parse)
    (hrs : ∀ m, (E.mrcp_message_resourcify_by_name m).2.body = m.body)
    (hs : stream_ok stream) :
    stream_ok (parser_stage_header E parser stream).2.2 ∧
      (parser_stage_header E parser stream).2.2.length = stream.length ∧
      (parser_stage_header E parser stream).2.1.body.buf = none := by
  obtain ⟨h1, h2, h3⟩ := parser_stage_resourcify_ok E parser stream hsl hch hrs hs
  exact ⟨(hhd _ _ h1).1, (hhd _ _ h1).2.trans h2, h3⟩

/-- The break of a new parse leaves the cursor within bounds: either where the tokenizer
stopped or at the checkpoint of the run. -/
theorem mrcp_parser_break_ok (parser : mrcp_parser_t) (entry stream : apt_text_stream_t)
    (hpos : parser.pos = entry.pos) (hentry : stream_ok entry) (hs : stream_ok stream)
    (hlen : stream.length = entry.length) :
    stream_ok (mrcp_parser_break parser stream).2.2 ∧
      parser_ready (mrcp_parser_break parser stream).2.1 := by
  unfold mrcp_parser_break
  split
  · obtain ⟨offset, ho, hin, _⟩ := (stream_ok_iff entry).1 hentry
    obtain ⟨offset1, _, _, hmem⟩ := (stream_ok_iff stream).1 hs
    refine ⟨?_, ?_⟩
    · rw [stream_ok_iff]
      exact ⟨offset, by simp [hpos, ho], by simp only; omega, hmem⟩
    · simp [parser_ready]
  · refine ⟨hs, ?_⟩
    unfold parser_ready
    cases parser.message <;> simp

/-- One run of the parser from a ready parser on a stream within bounds returns, and
leaves a ready parser and the cursor within bounds. -/
theorem mrcp_parser_run_ok (E : mrcp_externals_t) (parser : mrcp_parser_t)
    (stream : apt_text_stream_t) (hsl : tokenizer_ok E.mrcp_start_line_parse)
    (hch : tokenizer_ok E.mrcp_channel_id_parse)
    (hhd : tokenizer_ok E.mrcp_message_header_parse)
    (hrs : ∀ m, (E.mrcp_message_resourcify_by_name m).2.body = m.body)
    (hcl : ∀ header s g, (E.mrcp_message_header_parse header s).1 = true →
      (E.mrcp_message_header_parse header s).2.1.generic_header = some g →
      g.content_length + 1 < APR_SIZE_MOD)
    (hp : parser_ready parser) (hs : stream_ok stream) :
    ∃ r, mrcp_parser_run E parser stream = some r ∧ stream_ok r.2.2 ∧
      parser_ready r.2.1 := by
  have hnew : ∃ r, mrcp_parser_run_new E parser stream = some r ∧ stream_ok r.2.2 ∧
      parser_ready r.2.1 := by
    rw [mrcp_parser_run_new_eq]
    obtain ⟨a1, a2, _⟩ := parser_stage_start_line_ok E parser stream hsl hs
    obtain ⟨b1, _, b3⟩ := parser_stage_resourcify_ok E parser stream hsl hch hrs hs
    obtain ⟨c1, c2, c3⟩ := parser_stage_header_ok E parser stream hsl hch hhd hrs hs
    split
    · exact ⟨_, rfl, mrcp_parser_break_ok _ stream _ rfl hs a1 a2⟩
    · split
      · refine ⟨_, rfl, b1, ?_⟩
        simp only [parser_ready]
        intro _
        exact body_ready_of_no_buf _ b3
      · split
        · exact ⟨_, rfl, mrcp_parser_break_ok _ stream _ rfl hs c1 c2⟩
        · rename_i hhdt
          obtain ⟨r, hr, hr1, _, hr3⟩ := mrcp_message_body_parse_ok E.pool _ _ c3 c1
            (fun g hg => hcl _ _ g (by simpa [parser_stage_header] using hhdt) hg)
          rw [hr]
          refine ⟨_, rfl, hr1, ?_⟩
          simp only [parser_ready]
          intro _
          exact hr3
  unfold mrcp_parser_run
  cases hm : parser.message with
  | none => simpa using hnew
  | some message =>
    simp only
    by_cases hres : parser.result = MRCP_STREAM_MESSAGE_TRUNCATED
    · simp only [hres, if_true]
      have hb : body_ready message := by
        unfold parser_ready at hp
        simp only [hm] at hp
        exact hp hres
      obtain ⟨r, hr, hr1, _, hr3⟩ := mrcp_message_body_read_ok message stream hb hs
      rw [hr]
      refine ⟨_, rfl, hr1, ?_⟩
      simp only [parser_ready]
      intro _
      exact hr3
    · simp only [hres, if_false]
      exact hnew

/-- Position safety of the parser away from the wrap of the allocation size: with
start-line, channel-id and header tokenizers that keep the cursor within
`[0, length]`, a resource lookup that leaves the body alone, and a header tokenizer
that yields no content length whose successor wraps in `apr_size_t`, for every
stream whose cursor starts within bounds and every finite sequence of
`mrcp_parser_run` calls on it from a freshly created parser (with or without a
resource name set, the caller acting on the stream between the calls within
bounds), every call returns and the cursor offset satisfies
`0 ≤ pos - buf ≤ length` after it. -/
theorem mrcp_parser_run_seq_position (E : mrcp_externals_t) (name : Option apt_str_t)
    (stream : apt_text_stream_t)
    (callers : List (apt_text_stream_t → apt_text_stream_t))
    (hsl : tokenizer_ok E.mrcp_start_line_parse)
    (hch : tokenizer_ok E.mrcp_channel_id_parse)
    (hhd : tokenizer_ok E.mrcp_message_header_parse)
    (hrs : ∀ m, (E.mrcp_message_resourcify_by_name m).2.body = m.body)
    (hcl : ∀ header s g, (E.mrcp_message_header_parse header s).1 = true →
      (E.mrcp_message_header_parse header s).2.1.generic_header = some g →
      g.content_length + 1 < APR_SIZE_MOD)
    (hs : stream_ok stream)
    (hcallers : ∀ caller ∈ callers, ∀ s, stream_ok s → stream_ok (caller s)) :
    ∃ outs,
      mrcp_parser_run_seq E (mrcp_parser_resource_name_set mrcp_parser_create name)
        stream callers = some outs ∧
      outs.length = callers.length ∧
      ∀ r ∈ outs, ∃ offset, r.2.2.pos = some offset ∧ 0 ≤ offset ∧ offset ≤ r.2.2.length := by
  have hready : parser_ready (mrcp_parser_resource_name_set mrcp_parser_create name) := by
    cases name <;> simp [mrcp_parser_resource_name_set, mrcp_parser_create, parser_ready]
  generalize mrcp_parser_resource_name_set mrcp_parser_create name = parser at hready
  induction callers generalizing parser stream with
  | nil => exact ⟨[], rfl, rfl, by simp⟩
  | cons caller callers ih =>
    have hs1 : stream_ok (caller stream) := hcallers caller (List.mem_cons_self _ _) _ hs
    obtain ⟨r, hr, hr1, hr2⟩ :=
      mrcp_parser_run_ok E parser (caller stream) hsl hch hhd hrs hcl hready hs1
    obtain ⟨outs, ho, hl, hall⟩ := ih r.2.2 hr1
      (fun c hc => hcallers c (List.mem_cons_of_mem _ hc)) r.2.1 hr2
    refine ⟨r :: outs, ?_, by simp [hl], ?_⟩
    · simp only [mrcp_parser_run_seq, hr, ho]
    · intro x hx
      rcases List.mem_cons.1 hx with h | h
      · subst h
        obtain ⟨offset, h1, h2, _⟩ := (stream_ok_iff _).1 hr1
        exact ⟨offset, h1, Nat.zero_le _, h2⟩
      · exact hall x h

/-! ### The small wire format meets the assumptions on the tokenizers -/

theorem ex_start_line_parse_ok : tokenizer_ok ex_start_line_parse := by
  intro a stream hs
  obtain ⟨offset, hpos, hin, hmem⟩ := (stream_ok_iff stream).1 hs
  unfold ex_start_line_parse
  simp only [hpos]
  split
  · split
    · exact ⟨(stream_ok_iff _).2 ⟨_, rfl, by simp only; omega, hmem⟩, rfl⟩
    · exact ⟨(stream_ok_iff _).2 ⟨_, rfl, by simp only; omega, hmem⟩, rfl⟩
  · exact ⟨(stream_ok_iff _).2 ⟨_, rfl, Nat.le_refl _, hmem⟩, rfl⟩

theorem ex_channel_id_parse_ok : tokenizer_ok ex_channel_id_parse := by
  intro a stream hs
  obtain ⟨offset, hpos, hin, hmem⟩ := (stream_ok_iff stream).1 hs
  unfold ex_channel_id_parse
  simp only [hpos]
  split
  · exact ⟨(stream_ok_iff _).2 ⟨_, rfl, by simp only; omega, hmem⟩, rfl⟩
  · exact ⟨(stream_ok_iff _).2 ⟨_, rfl, Nat.le_refl _, hmem⟩, rfl⟩

theorem ex_header_parse_ok : tokenizer_ok ex_header_parse := by
  intro a stream hs
  obtain ⟨offset, hpos, hin, hmem⟩ := (stream_ok_iff stream).1 hs
  unfold ex_header_parse
  simp only [hpos]
  split
  · exact ⟨(stream_ok_iff _).2 ⟨_, rfl, by simp only; omega, hmem⟩, rfl⟩
  · exact ⟨(stream_ok_iff _).2 ⟨_, rfl, Nat.le_refl _, hmem⟩, rfl⟩

theorem ex_resourcify_by_name_body (message : mrcp_message_t) :
    (ex_resourcify_by_name message).2.body = message.body := by
  unfold ex_resourcify_by_name
  split <;> rfl

/-- The toy header tokenizer yields content lengths of one byte, or the content length
the header it was given already had. -/
theorem ex_header_parse_content_length (header : mrcp_message_header_t)
    (stream : apt_text_stream_t) (g : mrcp_generic_header_t)
    (ht : (ex_header_parse header stream).1 = true)
    (hg : (ex_header_parse header stream).2.1.generic_header = some g) :
    g.content_length + 1 < APR_SIZE_MOD := by
  unfold ex_header_parse at ht hg
  split at hg
  · simp_all
  · rename_i offset hpos
    simp only [hpos] at ht
    split at hg
    · simp only at hg
      split at hg
      · simp at hg
      · simp only [ex_header, Option.some.injEq] at hg
        subst hg
        have : ex_byte stream offset % 256 < 256 := Nat.mod_lt _ (by decide)
        simp only [APR_SIZE_MOD]
        omega
    · simp_all

theorem ex_header_parse_max_ok : tokenizer_ok ex_header_parse_max := by
  intro a stream hs
  obtain ⟨offset, hpos, hin, hmem⟩ := (stream_ok_iff stream).1 hs
  unfold ex_header_parse_max
  simp only [hpos]
  split
  · exact ⟨(stream_ok_iff _).2 ⟨_, rfl, by simp only; omega, hmem⟩, rfl⟩
  · exact ⟨(stream_ok_iff _).2 ⟨_, rfl, Nat.le_refl _, hmem⟩, rfl⟩

/-- C1, the code at a failing input: the three tokenizers of `ex_externals_max` keep the
cursor within `[0, length]` and the stream of the eleven bytes `ex_wire_speak` has
its cursor within bounds.  The first `mrcp_parser_run` of a fresh parser parses
start line, channel identifier and header, with the cursor at offset 6 of 11 and
`Content-Length: 18446744073709551615`.  The size of the body buffer,
`content_length + 1`, wraps to 0 in `apr_size_t` (line 73), the allocation has no
byte, and the body read copies the five bytes left in the stream to it (line 58):
a write outside the allocation.  The run has no defined outcome, so no cursor
within bounds after the call. -/
theorem mrcp_parser_run_allocation_wrap :
    tokenizer_ok ex_externals_max.mrcp_start_line_parse ∧
      tokenizer_ok ex_externals_max.mrcp_channel_id_parse ∧
      tokenizer_ok ex_externals_max.mrcp_message_header_parse ∧
      stream_ok (ex_stream_in ex_wire_speak) ∧
      (parser_stage_header ex_externals_max mrcp_parser_create
        (ex_stream_in ex_wire_speak)).1 = true ∧
      mrcp_generic_header_get (parser_stage_header ex_externals_max mrcp_parser_create
        (ex_stream_in ex_wire_speak)).2.1 =
        some { content_length := 18446744073709551615, content_type := [] } ∧
      (parser_stage_header ex_externals_max mrcp_parser_create
        (ex_stream_in ex_wire_speak)).2.2 =
        { buf := ex_wire_speak, length := 11, pos := some 6 } ∧
      size_add 18446744073709551615 1 = 0 ∧
      apr_palloc ex_externals_max.pool (size_add 18446744073709551615 1) = [] ∧
      memcpy [] 0 ex_wire_speak 6 5 = none ∧
      mrcp_message_body_parse ex_externals_max.pool
        (parser_stage_header ex_externals_max mrcp_parser_create
          (ex_stream_in ex_wire_speak)).2.1
        (parser_stage_header ex_externals_max mrcp_parser_create
          (ex_stream_in ex_wire_speak)).2.2 = none ∧
      mrcp_parser_run ex_externals_max mrcp_parser_create (ex_stream_in ex_wire_speak) =
        none :=
  ⟨ex_start_line_parse_ok, ex_channel_id_parse_ok, ex_header_parse_max_ok, by decide, rfl,
    rfl, rfl, rfl, rfl, rfl, rfl, rfl⟩

/-- Instance of the position safety: three calls on the stream that holds
`ex_wire_speak`, the caller leaving the stream alone between the calls. -/
theorem mrcp_parser_run_seq_position_witness :
    ∃ outs,
      mrcp_parser_run_seq ex_externals
        (mrcp_parser_resource_name_set mrcp_parser_create none)
        (ex_stream_in ex_wire_speak) [id, id, id] = some outs ∧
      outs.length = 3 ∧
      ∀ r ∈ outs, ∃ offset, r.2.2.pos = some offset ∧ 0 ≤ offset ∧ offset ≤ r.2.2.length :=
  mrcp_parser_run_seq_position ex_externals none (ex_stream_in ex_wire_speak) [id, id, id]
    ex_start_line_parse_ok ex_channel_id_parse_ok ex_header_parse_ok
    ex_resourcify_by_name_body ex_header_parse_content_length (by decide)
    (by
      intro caller hc s hs
      simp only [List.mem_cons, List.mem_singleton, List.not_mem_nil, or_false, or_self] at hc
      subst hc
      exact hs)

/-! ## Chunked body parse -/

theorem stream_presents_iff (stream : apt_text_stream_t) (chunk : List Nat) :
    stream_presents stream chunk ↔
      ∃ offset, stream.pos = some offset ∧ offset ≤ stream.length ∧
        stream.length ≤ stream.buf.length ∧
        (stream.buf.drop offset).take (stream.length - offset) = chunk ∧
        chunk.length = stream.length - offset := by
  unfold stream_presents stream_remaining
  rw [stream_ok_iff]
  constructor
  · rintro ⟨⟨offset, h1, h2, h3⟩, h4⟩
    simp only [h1] at h4
    refine ⟨offset, h1, h2, h3, h4, ?_⟩
    rw [← h4]
    simp
    omega
  · rintro ⟨offset, h1, h2, h3, h4, _⟩
    exact ⟨⟨offset, h1, h2, h3⟩, by simp only [h1]; exact h4⟩

/-- A body read on a message that holds `fed` of its `content_length` bytes, from a
stream that presents a chunk that fits: the chunk is appended. -/
theorem mrcp_message_body_read_fed (pool : Nat → Nat) (message : mrcp_message_t)
    (g : mrcp_generic_header_t)
    (fed chunk : List Nat) (stream : apt_text_stream_t)
    (hg : mrcp_generic_header_get message = some g)
    (hs : stream_presents stream chunk)
    (hfit : fed.length + chunk.length ≤ g.content_length) :
    mrcp_message_body_read (body_fed pool message g.content_length fed) stream =
      some
        (if fed.length + chunk.length = g.content_length then MRCP_STREAM_MESSAGE_COMPLETE
          else MRCP_STREAM_MESSAGE_TRUNCATED,
         body_fed pool message g.content_length (fed ++ chunk),
         { stream with pos := some stream.length }) := by
  obtain ⟨offset, hpos, hin, hmem, hchunk, hclen⟩ := (stream_presents_iff stream chunk).1 hs
  have hmin : min (g.content_length - fed.length) (stream.length - offset) = chunk.length := by
    omega
  obtain ⟨r, hmc, hr⟩ := mrcp_message_body_read_eq (body_fed pool message g.content_length fed)
    stream (fed ++ (apr_palloc pool (g.content_length + 1)).drop fed.length) g offset rfl hg
    (by show fed.length ≤ g.content_length; omega)
    (by simp only [List.length_append, List.length_drop, apr_palloc_length]; omega)
    hpos hin hmem
  rw [hr]
  have hbl : (body_fed pool message g.content_length fed).body.length = fed.length := rfl
  simp only [hbl, hmin] at hmc ⊢
  have hb := memcpy_bounds hmc
  rw [memcpy_of_le hb.1 hb.2] at hmc
  have hr1 : r = fed ++ chunk ++
      (apr_palloc pool (g.content_length + 1)).drop (fed ++ chunk).length := by
    rw [← Option.some.injEq, ← hmc]
    congr 1
    have e1 : List.take fed.length
        (fed ++ (apr_palloc pool (g.content_length + 1)).drop fed.length) = fed := by
      simp
    have e2 : List.take chunk.length (List.drop offset stream.buf) = chunk := by
      rw [hclen]
      exact hchunk
    have e3 : List.drop (fed.length + chunk.length)
        (fed ++ (apr_palloc pool (g.content_length + 1)).drop fed.length) =
        (apr_palloc pool (g.content_length + 1)).drop (fed ++ chunk).length := by
      rw [List.drop_append, List.drop_drop, List.length_append]
    rw [e1, e2, e3]
  subst hr1
  have hoff : offset + chunk.length = stream.length := by omega
  simp only [body_fed, List.length_append, hoff]

/-- The body parse of a message with `Content-Length: n`, `n > 0`, reads the first
chunk into a fresh body buffer. -/
theorem mrcp_message_body_parse_fed (pool : Nat → Nat) (message : mrcp_message_t)
    (g : mrcp_generic_header_t)
    (chunk : List Nat) (stream : apt_text_stream_t)
    (hp : mrcp_generic_header_property_check message GENERIC_HEADER_CONTENT_LENGTH = true)
    (hg : mrcp_generic_header_get message = some g)
    (hn : 0 < g.content_length)
    (hsize : g.content_length + 1 < APR_SIZE_MOD)
    (hs : stream_presents stream chunk)
    (hfit : chunk.length ≤ g.content_length) :
    mrcp_message_body_parse pool message stream =
      some
        (if chunk.length = g.content_length then MRCP_STREAM_MESSAGE_COMPLETE
          else MRCP_STREAM_MESSAGE_TRUNCATED,
         body_fed pool message g.content_length chunk,
         { stream with pos := some stream.length }) := by
  have h := mrcp_message_body_read_fed pool message g [] chunk stream hg hs
    (by simpa using hfit)
  unfold mrcp_message_body_parse
  simp only [hp, if_true, hg, Nat.pos_iff_ne_zero.1 hn, ne_eq, not_false_eq_true,
    size_add_of_lt hsize]
  simpa [body_fed] using h

/-- C7, the code at a failing input: `ex_message_speak` serializes to the eleven bytes
`ex_wire_speak` in one run.  With output buffers of 4 and 12 bytes the first run
fails in the headers at the end of the stream and returns Truncated with a
`NULL` cursor; the second run, on the same message, takes the continuation
branch, writes nothing and returns Complete.  The start line and the headers
are never written again and the body never at all. -/
theorem mrcp_generator_run_chunked_head :
    ∃ generator0 stream0 generator1 stream1 generator2 stream2,
      mrcp_generator_run ex_externals ex_generator_speak (ex_stream_out 11) =
        some (MRCP_STREAM_MESSAGE_COMPLETE, generator0, stream0) ∧
      stream_written stream0 = ex_wire_speak ∧
      mrcp_generator_run ex_externals ex_generator_speak (ex_stream_out 4) =
        some (MRCP_STREAM_MESSAGE_TRUNCATED, generator1, stream1) ∧
      stream1.pos = none ∧
      stream1.buf = [2, 83, 0, 0] ∧
      mrcp_generator_run ex_externals
          (mrcp_generator_message_set generator1 generator1.message).2 (ex_stream_out 12) =
        some (MRCP_STREAM_MESSAGE_COMPLETE, generator2, stream2) ∧
      stream_written stream2 = [] ∧
      stream_written stream1 ++ stream_written stream2 ≠ ex_wire_speak ∧
      stream1.buf ++ stream_written stream2 ≠ ex_wire_speak :=
  ⟨_, _, _, _, _, _, rfl, rfl, rfl, rfl, rfl, rfl, rfl, by decide, by decide⟩

/-! ## Round trip -/

theorem memcpy_copied_segment {dst src r : List Nat} {doff soff n : Nat}
    (h : memcpy dst doff src soff n = some r) :
    (r.drop doff).take n = (src.drop soff).take n := by
  have hb := memcpy_bounds h
  rw [memcpy_of_le hb.1 hb.2] at h
  cases h
  have h1 : (List.take doff dst).length = doff := by simp; omega
  have h2 : (List.take n (List.drop soff src)).length = n := by simp; omega
  rw [List.append_assoc, List.drop_left' h1, List.take_left' h2]

/-- A body generation that has room for the whole body of a consistent message: what it
returns and which bytes it leaves in the stream. -/
theorem mrcp_message_body_generate_room (message : mrcp_message_t)
    (stream : apt_text_stream_t) (offset : Nat)
    (hpos : stream.pos = some offset)
    (hroom : offset + message_content_length message ≤ stream.length)
    (hmem : stream.length ≤ stream.buf.length)
    (hlen : message.body.length = message_content_length message)
    (hbuf : message_content_length message ≠ 0 →
      ∃ b, message.body.buf = some b ∧ message_content_length message ≤ b.length) :
    ∃ stream1,
      mrcp_message_body_generate message stream =
        some (MRCP_STREAM_MESSAGE_COMPLETE, message, stream1) ∧
      stream1.pos = some (offset + message_content_length message) ∧
      stream1.length = stream.length ∧
      stream1.buf.length = stream.buf.length ∧
      (∀ i, i < offset → stream1.buf[i]? = stream.buf[i]?) ∧
      (stream1.buf.drop offset).take (message_content_length message) =
        apt_str_bytes message.body := by
  have hnobody : message_content_length message = 0 →
      ∃ stream1,
        some (MRCP_STREAM_MESSAGE_COMPLETE, message, stream) =
          some (MRCP_STREAM_MESSAGE_COMPLETE, message, stream1) ∧
        stream1.pos = some (offset + message_content_length message) ∧
        stream1.length = stream.length ∧
        stream1.buf.length = stream.buf.length ∧
        (∀ i, i < offset → stream1.buf[i]? = stream.buf[i]?) ∧
        (stream1.buf.drop offset).take (message_content_length message) =
          apt_str_bytes message.body := by
    intro hz
    refine ⟨stream, rfl, by rw [hz, hpos]; rfl, rfl, rfl, fun _ _ => rfl, ?_⟩
    rw [hz]
    unfold apt_str_bytes
    rw [hlen, hz]
    simp
  unfold mrcp_message_body_generate
  by_cases hp : mrcp_generic_header_property_check message GENERIC_HEADER_CONTENT_LENGTH = true
  · simp only [hp, if_true]
    cases hg : mrcp_generic_header_get message with
    | none =>
      simp only
      exact hnobody (by simp [message_content_length, hp, hg])
    | some g =>
      have hcl : message_content_length message = g.content_length := by
        simp [message_content_length, hp, hg]
      simp only
      by_cases hz : g.content_length = 0
      · simp only [hz, ne_eq, not_true_eq_false, if_false]
        exact hnobody (by rw [hcl, hz])
      · simp only [hz, ne_eq, not_false_eq_true, if_true]
        obtain ⟨b, hb, hbl⟩ := hbuf (by rw [hcl]; exact hz)
        rw [hcl] at hroom hlen hbl ⊢
        have hgt : ¬ g.content_length > stream.length - offset := by omega
        obtain ⟨r, hm⟩ : ∃ r, memcpy stream.buf offset b 0 g.content_length = some r :=
          ⟨_, memcpy_of_le (by omega) (by omega)⟩
        refine ⟨{ stream with buf := r, pos := some (offset + g.content_length) },
          ?_, rfl, rfl, memcpy_length hm, fun i hi => memcpy_get_before hm i hi, ?_⟩
        · cases message with
          | mk sl ch hd body =>
            cases body with
            | mk bb bl =>
              simp only at hb hlen
              subst hb hlen
              have hg2 : hd.generic_header = some g := hg
              simp [mrcp_message_body_write, mrcp_generic_header_get, hg2,
                Nat.pos_of_ne_zero hz, hpos, size_sub_of_le (Nat.zero_le g.content_length),
                size_sub_of_le (show offset ≤ stream.length by omega), hgt, hm]
        · have := memcpy_copied_segment hm
          simp only [List.drop_zero] at this
          simp only [this, apt_str_bytes, hb, Option.getD_some, hlen]
  · simp only [hp]
    exact hnobody (by simp [message_content_length, hp])

theorem message_content_length_of_header (m1 m2 : mrcp_message_t)
    (h : m1.header = m2.header) : message_content_length m1 = message_content_length m2 := by
  unfold message_content_length mrcp_generic_header_property_check mrcp_generic_header_get
  rw [h]

theorem parser_stage_header_body (E : mrcp_externals_t) (parser : mrcp_parser_t)
    (stream : apt_text_stream_t)
    (hrs : ∀ m, (E.mrcp_message_resourcify_by_name m).2.body = m.body) :
    (parser_stage_header E parser stream).2.1.body = apt_string_reset := by
  show (E.mrcp_message_resourcify_by_name _).2.body = apt_string_reset
  rw [hrs]
  unfold parser_stage_channel_id
  simp only
  split <;> rfl

/-- A body parse of a message without body buffer from a stream that holds the whole
body behind the cursor: Complete, with the body bytes taken from the stream. -/
theorem mrcp_message_body_parse_whole (pool : Nat → Nat) (message : mrcp_message_t)
    (stream : apt_text_stream_t) (k : Nat)
    (hbody : message.body = apt_string_reset)
    (hsize : message_content_length message + 1 < APR_SIZE_MOD)
    (hpos : stream.pos = some k)
    (hlen : stream.length = k + message_content_length message)
    (hmem : stream.length ≤ stream.buf.length) :
    ∃ parsed stream1,
      mrcp_message_body_parse pool message stream =
        some (MRCP_STREAM_MESSAGE_COMPLETE, parsed, stream1) ∧
      parsed.start_line = message.start_line ∧
      parsed.channel_id = message.channel_id ∧
      parsed.header = message.header ∧
      parsed.body.length = message_content_length message ∧
      apt_str_bytes parsed.body =
        (stream.buf.drop k).take (message_content_length message) := by
  have hnobody : message_content_length message = 0 →
      ∃ parsed stream1,
        some (MRCP_STREAM_MESSAGE_COMPLETE, message, stream) =
          some (MRCP_STREAM_MESSAGE_COMPLETE, parsed, stream1) ∧
        parsed.start_line = message.start_line ∧
        parsed.channel_id = message.channel_id ∧
        parsed.header = message.header ∧
        parsed.body.length = message_content_length message ∧
        apt_str_bytes parsed.body =
          (stream.buf.drop k).take (message_content_length message) := by
    intro hz
    refine ⟨message, stream, rfl, rfl, rfl, rfl, ?_, ?_⟩
    · rw [hz, hbody]
      rfl
    · rw [hz, hbody]
      simp [apt_str_bytes, apt_string_reset]
  by_cases hp : mrcp_generic_header_property_check message GENERIC_HEADER_CONTENT_LENGTH = true
  · cases hg : mrcp_generic_header_get message with
    | none =>
      unfold mrcp_message_body_parse
      simp only [hp, if_true, hg]
      exact hnobody (by simp [message_content_length, hp, hg])
    | some g =>
      have hcl : message_content_length message = g.content_length := by
        simp [message_content_length, hp, hg]
      by_cases hz : g.content_length = 0
      · unfold mrcp_message_body_parse
        simp only [hp, if_true, hg, hz, ne_eq, not_true_eq_false, if_false]
        exact hnobody (by rw [hcl, hz])
      · rw [hcl] at hlen hsize ⊢
        have hpres : stream_presents stream
            ((stream.buf.drop k).take g.content_length) := by
          rw [stream_presents_iff]
          refine ⟨k, hpos, by omega, hmem, ?_, ?_⟩
          · congr 1
            omega
          · simp
            omega
        have hclen : ((stream.buf.drop k).take g.content_length).length = g.content_length := by
          simp
          omega
        have h := mrcp_message_body_parse_fed pool message g _ stream hp hg
          (Nat.pos_of_ne_zero hz) hsize hpres (by rw [hclen])
        rw [hclen] at h
        simp only [if_true] at h
        generalize List.take g.content_length (List.drop k stream.buf) = chunk at h hclen ⊢
        refine ⟨_, _, h, rfl, rfl, rfl, hclen, ?_⟩
        show List.take chunk.length (chunk ++ _) = chunk
        simp
  · unfold mrcp_message_body_parse
    simp only [hp]
    exact hnobody (by simp [message_content_length, hp])

/-- C9, amended. Round trip: the message passes the resource lookup by id and the
validation, the output stream has room for start line, headers and body, the
body of the message matches its content length, the content length is below
`SIZE_MAX` (the size of the buffer the parser allocates for the body does not
wrap), and the tokenizers and the
resource lookup by name invert the generation of the start line, headers and
(version 2) channel identifier of this message, on every input stream that
starts with the bytes generated.  Then `mrcp_generator_run` on the message
returns Complete, and `mrcp_parser_run` on the bytes written returns Complete
with a message that has the start line, headers and body bytes of the message
as the generator leaves it; its channel identifier is that of the message for
version 2, and otherwise the resource name preset on the parser with an empty
session identifier. -/
theorem mrcp_generator_parser_round_trip (E : mrcp_externals_t) (message : mrcp_message_t)
    (name : Option apt_str_t) (stream : apt_text_stream_t) (k : Nat)
    (hr : (generator_stage_resourcify E message).1 = true)
    (hv : (generator_stage_validate E message).1 = true)
    (hsl : (generator_stage_start_line E message stream).1 = true)
    (hhd : (generator_stage_header E message stream).1 = true)
    (hk : (generator_stage_finalize E message stream).2.pos = some k)
    (hroom : k + message_content_length (generator_stage_finalize E message stream).1 ≤
      (generator_stage_finalize E message stream).2.length)
    (hmem : (generator_stage_finalize E message stream).2.length ≤
      (generator_stage_finalize E message stream).2.buf.length)
    (hlen : (generator_stage_finalize E message stream).1.body.length =
      message_content_length (generator_stage_finalize E message stream).1)
    (hsize : message_content_length (generator_stage_finalize E message stream).1 + 1 <
      APR_SIZE_MOD)
    (hbuf : message_content_length (generator_stage_finalize E message stream).1 ≠ 0 →
      ∃ b, (generator_stage_finalize E message stream).1.body.buf = some b ∧
        message_content_length (generator_stage_finalize E message stream).1 ≤ b.length)
    (hrs : ∀ m, (E.mrcp_message_resourcify_by_name m).2.body = m.body ∧
      (E.mrcp_message_resourcify_by_name m).2.channel_id = m.channel_id)
    (hinv : ∀ t : apt_text_stream_t, t.pos = stream.pos → k ≤ t.length →
      t.length ≤ t.buf.length →
      (∀ i, i < k → t.buf[i]? = (generator_stage_finalize E message stream).2.buf[i]?) →
      (parser_stage_start_line E (mrcp_parser_resource_name_set mrcp_parser_create name) t).1 =
        true ∧
      (parser_stage_start_line E (mrcp_parser_resource_name_set mrcp_parser_create name)
        t).2.1.start_line.version =
        (generator_stage_finalize E message stream).1.start_line.version ∧
      ((generator_stage_finalize E message stream).1.start_line.version = MRCP_VERSION_2 →
        (parser_stage_channel_id E (mrcp_parser_resource_name_set mrcp_parser_create name)
          t).1.channel_id = (generator_stage_finalize E message stream).1.channel_id) ∧
      (parser_stage_resourcify E (mrcp_parser_resource_name_set mrcp_parser_create name) t).1 =
        true ∧
      (parser_stage_header E (mrcp_parser_resource_name_set mrcp_parser_create name) t).1 =
        true ∧
      (parser_stage_header E (mrcp_parser_resource_name_set mrcp_parser_create name)
        t).2.1.start_line = (generator_stage_finalize E message stream).1.start_line ∧
      (parser_stage_header E (mrcp_parser_resource_name_set mrcp_parser_create name)
        t).2.1.header = (generator_stage_finalize E message stream).1.header ∧
      (parser_stage_header E (mrcp_parser_resource_name_set mrcp_parser_create name)
        t).2.2 = { t with pos := some k }) :
    ∃ generator1 stream1 parser1 stream2 parsed,
      mrcp_generator_run E
          (mrcp_generator_message_set mrcp_generator_create (some message)).2 stream =
        some (MRCP_STREAM_MESSAGE_COMPLETE, generator1, stream1) ∧
      generator1.message = some (generator_stage_finalize E message stream).1 ∧
      mrcp_parser_run E (mrcp_parser_resource_name_set mrcp_parser_create name)
          (stream_replay stream stream1) =
        some (MRCP_STREAM_MESSAGE_COMPLETE, parser1, stream2) ∧
      mrcp_parser_message_get parser1 = some parsed ∧
      parsed.start_line = (generator_stage_finalize E message stream).1.start_line ∧
      parsed.header = (generator_stage_finalize E message stream).1.header ∧
      parsed.body.length = (generator_stage_finalize E message stream).1.body.length ∧
      apt_str_bytes parsed.body =
        apt_str_bytes (generator_stage_finalize E message stream).1.body ∧
      ((generator_stage_finalize E message stream).1.start_line.version = MRCP_VERSION_2 →
        parsed.channel_id = (generator_stage_finalize E message stream).1.channel_id) ∧
      ((generator_stage_finalize E message stream).1.start_line.version ≠ MRCP_VERSION_2 →
        parsed.channel_id =
          { session_id := apt_string_reset
            resource_name :=
              (mrcp_parser_resource_name_set mrcp_parser_create name).resource_name }) := by
  obtain ⟨s1, hgen, hs1pos, hs1len, hs1buf, hs1head, hs1body⟩ :=
    mrcp_message_body_generate_room _ _ k hk hroom hmem hlen hbuf
  have hrun : mrcp_generator_run E
      (mrcp_generator_message_set mrcp_generator_create (some message)).2 stream =
      some (MRCP_STREAM_MESSAGE_COMPLETE,
        { (mrcp_generator_message_set mrcp_generator_create (some message)).2 with
          result := MRCP_STREAM_MESSAGE_COMPLETE
          message := some (generator_stage_finalize E message stream).1 }, s1) := by
    rw [mrcp_generator_run_new_eq E _ message stream rfl
      (show MRCP_STREAM_MESSAGE_INVALID ≠ MRCP_STREAM_MESSAGE_TRUNCATED by decide)]
    simp only [hr, hv, hsl, hhd, hgen]
    simp
  have hparser : (mrcp_parser_resource_name_set mrcp_parser_create name).message = none := by
    cases name <;> rfl
  have ht := hinv (stream_replay stream s1) rfl
    (by simp [stream_replay, hs1pos])
    (by simp only [stream_replay, hs1pos, Option.getD_some]; omega)
    (fun i hi => hs1head i hi)
  obtain ⟨p1, pv, pc, p2, p3, p4, p6, p7⟩ := ht
  have hcl := message_content_length_of_header _ _ p6
  obtain ⟨parsed, s2, hparse, q1, q2, q3, q4, q5⟩ := mrcp_message_body_parse_whole E.pool
    (parser_stage_header E (mrcp_parser_resource_name_set mrcp_parser_create name)
      (stream_replay stream s1)).2.1
    (parser_stage_header E (mrcp_parser_resource_name_set mrcp_parser_create name)
      (stream_replay stream s1)).2.2 k
    (parser_stage_header_body E _ _ (fun m => (hrs m).1))
    (by rw [hcl]; exact hsize)
    (by rw [p7])
    (by rw [p7, hcl]; simp [stream_replay, hs1pos])
    (by rw [p7]; simp only [stream_replay, hs1pos, Option.getD_some]; omega)
  have hprun : mrcp_parser_run E (mrcp_parser_resource_name_set mrcp_parser_create name)
      (stream_replay stream s1) =
      some (MRCP_STREAM_MESSAGE_COMPLETE,
        { (mrcp_parser_resource_name_set mrcp_parser_create name) with
          result := MRCP_STREAM_MESSAGE_COMPLETE
          message := some parsed
          pos := (stream_replay stream s1).pos }, s2) := by
    rw [mrcp_parser_run_of_new E _ _ (Or.inl hparser), mrcp_parser_run_new_eq]
    simp only [p1, p2, p3, hparse]
    simp
  have hch : parsed.channel_id =
      (parser_stage_channel_id E (mrcp_parser_resource_name_set mrcp_parser_create name)
        (stream_replay stream s1)).1.channel_id := by
    rw [q2]
    exact (hrs _).2
  refine ⟨_, s1, _, s2, parsed, hrun, rfl, hprun, rfl, q1.trans p4, q3.trans p6, ?_, ?_,
    ?_, ?_⟩
  · rw [q4, hcl, hlen]
  · rw [q5, hcl, p7, ← hs1body]
    rfl
  · intro h2
    rw [hch]
    exact pc h2
  · intro h2
    rw [hch]
    unfold parser_stage_channel_id
    simp only [pv, h2, if_false]
    rfl

/-- The tokenizers of the small wire format read back the start line, channel
identifier and header that the generation of `ex_message_speak` writes, whatever
follows them in the input. -/
theorem ex_externals_inverts_speak (t : apt_text_stream_t)
    (hpos : t.pos = (ex_stream_out 12).pos) (hk : 6 ≤ t.length)
    (hag : ∀ i, i < 6 → t.buf[i]? =
      (generator_stage_finalize ex_externals ex_message_speak (ex_stream_out 12)).2.buf[i]?) :
    (parser_stage_start_line ex_externals
      (mrcp_parser_resource_name_set mrcp_parser_create none) t).1 = true ∧
    (parser_stage_start_line ex_externals
      (mrcp_parser_resource_name_set mrcp_parser_create none) t).2.1.start_line.version =
      (generator_stage_finalize ex_externals ex_message_speak
        (ex_stream_out 12)).1.start_line.version ∧
    ((generator_stage_finalize ex_externals ex_message_speak
        (ex_stream_out 12)).1.start_line.version = MRCP_VERSION_2 →
      (parser_stage_channel_id ex_externals
        (mrcp_parser_resource_name_set mrcp_parser_create none) t).1.channel_id =
      (generator_stage_finalize ex_externals ex_message_speak
        (ex_stream_out 12)).1.channel_id) ∧
    (parser_stage_resourcify ex_externals
      (mrcp_parser_resource_name_set mrcp_parser_create none) t).1 = true ∧
    (parser_stage_header ex_externals
      (mrcp_parser_resource_name_set mrcp_parser_create none) t).1 = true ∧
    (parser_stage_header ex_externals (mrcp_parser_resource_name_set mrcp_parser_create none)
      t).2.1.start_line =
      (generator_stage_finalize ex_externals ex_message_speak (ex_stream_out 12)).1.start_line ∧
    (parser_stage_header ex_externals (mrcp_parser_resource_name_set mrcp_parser_create none)
      t).2.1.header =
      (generator_stage_finalize ex_externals ex_message_speak (ex_stream_out 12)).1.header ∧
    (parser_stage_header ex_externals (mrcp_parser_resource_name_set mrcp_parser_create none)
      t).2.2 = { t with pos := some 6 } := by
  have h0 : t.buf[0]? = some 2 := (hag 0 (by decide)).trans rfl
  have h1 : t.buf[1]? = some 83 := (hag 1 (by decide)).trans rfl
  have h2 : t.buf[2]? = some 11 := (hag 2 (by decide)).trans rfl
  have h3 : t.buf[3]? = some 97 := (hag 3 (by decide)).trans rfl
  have h4 : t.buf[4]? = some 115 := (hag 4 (by decide)).trans rfl
  have h5 : t.buf[5]? = some 5 := (hag 5 (by decide)).trans rfl
  have hp0 : t.pos = some 0 := hpos
  have l3 : 0 + 3 ≤ t.length := by omega
  have l5 : 3 + 2 ≤ t.length := by omega
  have l6 : 5 + 1 ≤ t.length := by omega
  have hsl : ex_start_line_parse mrcp_message_create.start_line t =
      (true,
        { mrcp_message_create.start_line with
          message_type := mrcp_message_type_e.MRCP_MESSAGE_TYPE_REQUEST
          version := MRCP_VERSION_2
          method_name := [83]
          length := 11 },
        { t with pos := some 3 }) := by
    simp [ex_start_line_parse, hp0, l3, ex_byte, h0, h1, h2]
  have hch : ex_channel_id_parse
      { session_id := apt_string_reset, resource_name := apt_string_reset }
      { t with pos := some 3 } =
      (true,
        { session_id := { buf := some [97], length := 1 }
          resource_name := { buf := some [115], length := 1 } },
        { t with pos := some 5 }) := by
    simp [ex_channel_id_parse, l5, ex_byte, h3, h4]
  have hhd : ∀ hd, ex_header_parse hd { t with pos := some 5 } =
      (true, ex_header 5, { t with pos := some 6 }) := by
    intro hd
    simp [ex_header_parse, l6, ex_byte, h5]
  have e1 : parser_stage_start_line ex_externals
      (mrcp_parser_resource_name_set mrcp_parser_create none) t =
      (true,
        { mrcp_message_create with
          start_line :=
            { mrcp_message_create.start_line with
              message_type := mrcp_message_type_e.MRCP_MESSAGE_TYPE_REQUEST
              version := MRCP_VERSION_2
              method_name := [83]
              length := 11 } },
        { t with pos := some 3 }) := by
    show (_, _, _) = _
    simp only [ex_externals, parser_new_message, mrcp_parser_resource_name_set,
      mrcp_parser_create]
    rw [show mrcp_message_create.start_line = mrcp_message_create.start_line from rfl, hsl]
    rfl
  have e2 : parser_stage_channel_id ex_externals
      (mrcp_parser_resource_name_set mrcp_parser_create none) t =
      ({ mrcp_message_create with
          start_line :=
            { mrcp_message_create.start_line with
              message_type := mrcp_message_type_e.MRCP_MESSAGE_TYPE_REQUEST
              version := MRCP_VERSION_2
              method_name := [83]
              length := 11 }
          channel_id :=
            { session_id := { buf := some [97], length := 1 }
              resource_name := { buf := some [115], length := 1 } } },
        { t with pos := some 5 }) := by
    unfold parser_stage_channel_id
    rw [e1]
    simp only [if_true]
    show (_, _) = _
    simp only [ex_externals]
    rw [show mrcp_message_create.channel_id =
      { session_id := apt_string_reset, resource_name := apt_string_reset } from rfl, hch]
  have e3 : parser_stage_resourcify ex_externals
      (mrcp_parser_resource_name_set mrcp_parser_create none) t =
      (true,
        { mrcp_message_create with
          start_line :=
            { mrcp_message_create.start_line with
              message_type := mrcp_message_type_e.MRCP_MESSAGE_TYPE_REQUEST
              version := MRCP_VERSION_2
              method_name := [83]
              method_id := 1
              length := 11 }
          channel_id :=
            { session_id := { buf := some [97], length := 1 }
              resource_name := { buf := some [115], length := 1 } } },
        { t with pos := some 5 }) := by
    unfold parser_stage_resourcify
    rw [e2]
    rfl
  have e4 : parser_stage_header ex_externals
      (mrcp_parser_resource_name_set mrcp_parser_create none) t =
      (true,
        { mrcp_message_create with
          start_line :=
            { mrcp_message_create.start_line with
              message_type := mrcp_message_type_e.MRCP_MESSAGE_TYPE_REQUEST
              version := MRCP_VERSION_2
              method_name := [83]
              method_id := 1
              length := 11 }
          channel_id :=
            { session_id := { buf := some [97], length := 1 }
              resource_name := { buf := some [115], length := 1 } }
          header := ex_header 5 },
        { t with pos := some 6 }) := by
    unfold parser_stage_header
    rw [e3]
    show (_, _, _) = _
    simp only [ex_externals]
    rw [hhd]
  rw [e1, e2, e3, e4]
  exact ⟨rfl, rfl, fun _ => rfl, rfl, rfl, rfl, rfl, rfl⟩

theorem ex_resourcify_by_name_channel_id (message : mrcp_message_t) :
    (ex_resourcify_by_name message).2.channel_id = message.channel_id := by
  unfold ex_resourcify_by_name
  split <;> rfl

/-- Instance of C9 amended: `ex_message_speak` (version 2) through the small wire format
and an output buffer of twelve bytes. -/
theorem mrcp_generator_parser_round_trip_witness :
    ∃ generator1 stream1 parser1 stream2 parsed,
      mrcp_generator_run ex_externals
          (mrcp_generator_message_set mrcp_generator_create (some ex_message_speak)).2
          (ex_stream_out 12) =
        some (MRCP_STREAM_MESSAGE_COMPLETE, generator1, stream1) ∧
      generator1.message =
        some (generator_stage_finalize ex_externals ex_message_speak (ex_stream_out 12)).1 ∧
      mrcp_parser_run ex_externals (mrcp_parser_resource_name_set mrcp_parser_create none)
          (stream_replay (ex_stream_out 12) stream1) =
        some (MRCP_STREAM_MESSAGE_COMPLETE, parser1, stream2) ∧
      mrcp_parser_message_get parser1 = some parsed ∧
      parsed.start_line =
        (generator_stage_finalize ex_externals ex_message_speak
          (ex_stream_out 12)).1.start_line ∧
      parsed.header =
        (generator_stage_finalize ex_externals ex_message_speak (ex_stream_out 12)).1.header ∧
      parsed.body.length =
        (generator_stage_finalize ex_externals ex_message_speak
          (ex_stream_out 12)).1.body.length ∧
      apt_str_bytes parsed.body =
        apt_str_bytes
          (generator_stage_finalize ex_externals ex_message_speak (ex_stream_out 12)).1.body ∧
      parsed.channel_id =
        (generator_stage_finalize ex_externals ex_message_speak
          (ex_stream_out 12)).1.channel_id := by
  obtain ⟨g1, s1, p1, s2, parsed, h1, h2, h3, h4, h5, h6, h7, h8, h9, _⟩ :=
    mrcp_generator_parser_round_trip ex_externals ex_message_speak none (ex_stream_out 12) 6
      (by decide) (by decide) (by decide) (by decide) rfl (by decide) (by decide) (by decide)
      (by decide)
      (fun _ => ⟨[104, 101, 108, 108, 111], rfl, by decide⟩)
      (fun m => ⟨ex_resourcify_by_name_body m, ex_resourcify_by_name_channel_id m⟩)
      (fun t h1 h2 _ h4 => ex_externals_inverts_speak t h1 h2 h4)
  exact ⟨g1, s1, p1, s2, parsed, h1, h2, h3, h4, h5, h6, h7, h8, h9 rfl⟩

/-- C9, a message the claim fails on: a version 1 message that carries a session
identifier, parsed by a parser with the resource name preset.  Generation and
parse both return Complete and start line, header and body bytes come back,
but the channel identifier of the parsed message has the preset resource name
and an empty session identifier: version 1 puts no channel identifier on the
wire. -/
theorem mrcp_round_trip_v1_session_lost :
    ∃ generator1 stream1 generated parser1 stream2 parsed,
      mrcp_generator_run ex_externals
          (mrcp_generator_message_set mrcp_generator_create (some ex_message_speak_v1)).2
          (ex_stream_out 12) =
        some (MRCP_STREAM_MESSAGE_COMPLETE, generator1, stream1) ∧
      generator1.message = some generated ∧
      mrcp_parser_run ex_externals
          (mrcp_parser_resource_name_set mrcp_parser_create (some ex_resource_name))
          (stream_replay (ex_stream_out 12) stream1) =
        some (MRCP_STREAM_MESSAGE_COMPLETE, parser1, stream2) ∧
      mrcp_parser_message_get parser1 = some parsed ∧
      parsed.start_line = generated.start_line ∧
      parsed.header = generated.header ∧
      apt_str_bytes parsed.body = apt_str_bytes generated.body ∧
      generated.channel_id = ex_message_speak_v1.channel_id ∧
      parsed.channel_id.resource_name = generated.channel_id.resource_name ∧
      parsed.channel_id.session_id = apt_string_reset ∧
      parsed.channel_id ≠ generated.channel_id :=
  ⟨_, _, _, _, _, _, rfl, rfl, rfl, rfl, rfl, rfl, rfl, rfl, rfl, rfl, by decide⟩

/-! ## Empty body phase -/

/-- C12. Empty body phase: for a message whose `Content-Length` property is not set, or is
set with the value zero, `mrcp_message_body_parse` (whatever the pool holds) and
`mrcp_message_body_generate` both return Complete and leave the stream (cursor and
contents) and the message (its body included) as they are. -/
theorem mrcp_message_body_empty (pool : Nat → Nat) (message : mrcp_message_t)
    (stream : apt_text_stream_t)
    (hzero : mrcp_generic_header_property_check message GENERIC_HEADER_CONTENT_LENGTH = true →
      ∀ generic_header, mrcp_generic_header_get message = some generic_header →
        generic_header.content_length = 0) :
    mrcp_message_body_parse pool message stream =
        some (MRCP_STREAM_MESSAGE_COMPLETE, message, stream) ∧
      mrcp_message_body_generate message stream =
        some (MRCP_STREAM_MESSAGE_COMPLETE, message, stream) := by
  unfold mrcp_message_body_parse mrcp_message_body_generate
  by_cases hp : mrcp_generic_header_property_check message GENERIC_HEADER_CONTENT_LENGTH = true
  · cases hg : mrcp_generic_header_get message with
    | none => simp [hp]
    | some g =>
      have hz := hzero hp g hg
      simp [hp, hz]
  · simp [hp]

/-- Instance of C12: a message with `Content-Length: 0` and a stream with input left. -/
theorem mrcp_message_body_empty_witness :
    mrcp_message_body_parse ex_externals.pool ex_message_zero ex_stream_lo =
        some (MRCP_STREAM_MESSAGE_COMPLETE, ex_message_zero, ex_stream_lo) ∧
      mrcp_message_body_generate ex_message_zero ex_stream_lo =
        some (MRCP_STREAM_MESSAGE_COMPLETE, ex_message_zero, ex_stream_lo) :=
  mrcp_message_body_empty ex_externals.pool ex_message_zero ex_stream_lo (by
    intro _ g hg
    cases hg
    rfl)

/-! ## Generator early rejection -/

/-- C15. Generator early rejection: `mrcp_generator_message_set` with no message returns
false and leaves the generator as it is; and `mrcp_generator_run` returns Invalid
with the stream as it was (cursor not moved, no byte written) when no message has
been set, or, the generator not resuming a body, when `mrcp_message_resourcify_by_id`
fails or the validation fails. -/
theorem mrcp_generator_run_reject (E : mrcp_externals_t) (generator : mrcp_generator_t)
    (stream : apt_text_stream_t)
    (hreject : generator.message = none ∨
      ∃ message, generator.message = some message ∧
        generator.result ≠ MRCP_STREAM_MESSAGE_TRUNCATED ∧
        ((generator_stage_resourcify E message).1 = false ∨
          ((generator_stage_resourcify E message).1 = true ∧
            (generator_stage_validate E message).1 = false))) :
    mrcp_generator_message_set generator none = (false, generator) ∧
      ∃ generator1,
        mrcp_generator_run E generator stream =
          some (MRCP_STREAM_MESSAGE_INVALID, generator1, stream) := by
  refine ⟨rfl, ?_⟩
  rcases hreject with h | ⟨message, hm, hres, h⟩
  · refine ⟨generator, ?_⟩
    unfold mrcp_generator_run
    simp [h]
  · rw [mrcp_generator_run_new_eq E generator message stream hm hres]
    rcases h with h | ⟨h1, h2⟩
    · simp only [h, if_true]
      exact ⟨_, rfl⟩
    · simp only [h1, h2, if_true]
      exact ⟨_, rfl⟩

/-- Instance of C15: a message whose method id the resource lookup rejects, and an output
stream with room for it. -/
theorem mrcp_generator_run_reject_witness :
    mrcp_generator_message_set ex_generator_unknown none = (false, ex_generator_unknown) ∧
      ∃ generator1,
        mrcp_generator_run ex_externals ex_generator_unknown (ex_stream_out 12) =
          some (MRCP_STREAM_MESSAGE_INVALID, generator1, ex_stream_out 12) :=
  mrcp_generator_run_reject ex_externals ex_generator_unknown (ex_stream_out 12)
    (Or.inr ⟨ex_message_unknown, rfl, by decide, Or.inl (by decide)⟩)

/-! ## Break classification -/

/-- C17. Break classification: when `mrcp_parser_run` starts a new message and the
start-line tokenizer fails, or the start line and the resource lookup succeed and
the header tokenizer fails, with `failed` the stream as the failing tokenizer
leaves it, the run returns Truncated iff the cursor of `failed` is at the end of
the stream; otherwise it returns Invalid, stores Invalid as the parser result and
leaves the stream as the tokenizer left it. -/
theorem mrcp_parser_run_break (E : mrcp_externals_t) (parser : mrcp_parser_t)
    (stream failed : apt_text_stream_t)
    (hnew : parser.message = none ∨ parser.result ≠ MRCP_STREAM_MESSAGE_TRUNCATED)
    (hfail :
      ((parser_stage_start_line E parser stream).1 = false ∧
        failed = (parser_stage_start_line E parser stream).2.2) ∨
      ((parser_stage_start_line E parser stream).1 = true ∧
        (parser_stage_resourcify E parser stream).1 = true ∧
        (parser_stage_header E parser stream).1 = false ∧
        failed = (parser_stage_header E parser stream).2.2)) :
    ∃ result parser1 stream1,
      mrcp_parser_run E parser stream = some (result, parser1, stream1) ∧
      (result = MRCP_STREAM_MESSAGE_TRUNCATED ↔ apt_text_is_eos failed = true) ∧
      (apt_text_is_eos failed = false →
        result = MRCP_STREAM_MESSAGE_INVALID ∧
        parser1.result = MRCP_STREAM_MESSAGE_INVALID ∧
        stream1 = failed) := by
  have hbreak : ∀ p : mrcp_parser_t,
      ∃ result parser1 stream1,
        some (mrcp_parser_break p failed) = some (result, parser1, stream1) ∧
        (result = MRCP_STREAM_MESSAGE_TRUNCATED ↔ apt_text_is_eos failed = true) ∧
        (apt_text_is_eos failed = false →
          result = MRCP_STREAM_MESSAGE_INVALID ∧
          parser1.result = MRCP_STREAM_MESSAGE_INVALID ∧
          stream1 = failed) := by
    intro p
    unfold mrcp_parser_break
    by_cases he : apt_text_is_eos failed = true
    · simp only [he, if_true]
      exact ⟨_, _, _, rfl, by simp, by simp⟩
    · simp only [he, if_false]
      exact ⟨_, _, _, rfl, by simp [he], fun _ => ⟨rfl, rfl, rfl⟩⟩
  rw [mrcp_parser_run_of_new E parser stream hnew, mrcp_parser_run_new_eq]
  rcases hfail with ⟨h1, h2⟩ | ⟨h1, h2, h3, h4⟩
  · simp only [h1, if_true, ← h2]
    exact hbreak _
  · simp only [h1, h2, h3, if_true, ← h4]
    exact hbreak _

/-- Instance of C17: the first input byte is no protocol version; the start-line tokenizer
stops behind it, in the middle of the buffer. -/
theorem mrcp_parser_run_break_witness :
    ∃ result parser1 stream1,
      mrcp_parser_run ex_externals mrcp_parser_create (ex_stream_in ex_wire_malformed) =
        some (result, parser1, stream1) ∧
      (result = MRCP_STREAM_MESSAGE_TRUNCATED ↔
        apt_text_is_eos { ex_stream_in ex_wire_malformed with pos := some 1 } = true) ∧
      (apt_text_is_eos { ex_stream_in ex_wire_malformed with pos := some 1 } = false →
        result = MRCP_STREAM_MESSAGE_INVALID ∧
        parser1.result = MRCP_STREAM_MESSAGE_INVALID ∧
        stream1 = { ex_stream_in ex_wire_malformed with pos := some 1 }) :=
  mrcp_parser_run_break ex_externals mrcp_parser_create (ex_stream_in ex_wire_malformed)
    { ex_stream_in ex_wire_malformed with pos := some 1 } (Or.inl rfl)
    (Or.inl ⟨by decide, by decide⟩)

/-! ## Body buffer bound -/

/-- A body read keeps the body within its buffer. -/
theorem mrcp_message_body_read_within (pool : Nat → Nat) (message : mrcp_message_t)
    (stream : apt_text_stream_t)
    (g : mrcp_generic_header_t) (hg : mrcp_generic_header_get message = some g)
    (hw : body_within pool g.content_length message) (hs : stream_ok stream) :
    ∃ r, mrcp_message_body_read message stream = some r ∧
      mrcp_generic_header_get r.2.1 = some g ∧ body_within pool g.content_length r.2.1 := by
  obtain ⟨b, hb, hbl, hlen, hrest⟩ := hw
  obtain ⟨offset, hpos, hin, hmem⟩ := (stream_ok_iff stream).1 hs
  obtain ⟨b1, hmc, hr⟩ := mrcp_message_body_read_eq message stream b g offset hb hg hlen
    (by omega) hpos hin hmem
  refine ⟨_, hr, hg, b1, rfl, ?_, ?_, ?_⟩
  · rw [memcpy_length hmc, hbl]
  · show message.body.length + _ ≤ g.content_length
    omega
  · intro i hi
    rw [memcpy_get_after hmc i hi]
    exact hrest i (by
      have : message.body.length ≤ message.body.length +
          min (g.content_length - message.body.length) (stream.length - offset) :=
        Nat.le_add_right _ _
      exact Nat.le_trans this hi)

/-- Successive body reads keep the body within its buffer. -/
theorem mrcp_message_body_read_seq_within (pool : Nat → Nat) (g : mrcp_generic_header_t)
    (streams : List apt_text_stream_t) :
    ∀ message : mrcp_message_t, mrcp_generic_header_get message = some g →
      body_within pool g.content_length message →
      (∀ s ∈ streams, stream_ok s) →
      ∃ outs, mrcp_message_body_read_seq message streams = some outs ∧
        outs.length = streams.length ∧
        ∀ r ∈ outs, body_within pool g.content_length r.2.1 := by
  induction streams with
  | nil =>
    intro message _ _ _
    exact ⟨[], rfl, rfl, by simp⟩
  | cons s ss ih =>
    intro message hg hw hss
    obtain ⟨r, hr, hg1, hw1⟩ := mrcp_message_body_read_within pool message s g hg hw
      (hss s (List.mem_cons_self _ _))
    obtain ⟨outs, ho, hl, hall⟩ := ih r.2.1 hg1 hw1
      (fun x hx => hss x (List.mem_cons_of_mem _ hx))
    refine ⟨r :: outs, ?_, by simp [hl], ?_⟩
    · simp only [mrcp_message_body_read_seq, hr, ho]
    · intro x hx
      rcases List.mem_cons.1 hx with h | h
      · subst h
        exact hw1
      · exact hall x h

/-- C18. Body buffer bound: for a message with `Content-Length: n`, `n > 0`, whose body
buffer `mrcp_message_body_parse` allocates with `n + 1` bytes (the size `n + 1` does
not wrap in `apr_size_t`), whatever bytes the allocation holds (`pool i` at index
`i`): after that call and after every further `mrcp_message_body_read` call on the
message (any number of calls, any streams within bounds) the buffer still has
`n + 1` bytes, `body.length ≤ n`, and every byte from index `body.length` on is the
byte the allocation held there: the writes fall at indices below `n` and the byte
at index `n` is still `pool n`, never written. -/
theorem mrcp_message_body_bound (pool : Nat → Nat) (message : mrcp_message_t)
    (g : mrcp_generic_header_t)
    (stream : apt_text_stream_t) (streams : List apt_text_stream_t)
    (hp : mrcp_generic_header_property_check message GENERIC_HEADER_CONTENT_LENGTH = true)
    (hg : mrcp_generic_header_get message = some g)
    (hn : g.content_length ≠ 0)
    (hsize : g.content_length + 1 < APR_SIZE_MOD)
    (hs : stream_ok stream) (hss : ∀ s ∈ streams, stream_ok s) :
    ∃ first outs,
      mrcp_message_body_parse pool message stream = some first ∧
      mrcp_message_body_read_seq first.2.1 streams = some outs ∧
      outs.length = streams.length ∧
      ∀ r ∈ first :: outs, ∃ body_buf,
        r.2.1.body.buf = some body_buf ∧
        body_buf.length = g.content_length + 1 ∧
        r.2.1.body.length ≤ g.content_length ∧
        (∀ i, r.2.1.body.length ≤ i → i ≤ g.content_length →
          body_buf[i]? = some (pool i)) ∧
        body_buf[g.content_length]? = some (pool g.content_length) := by
  have hg0 : mrcp_generic_header_get
      { message with
        body := { buf := some (apr_palloc pool (g.content_length + 1)), length := 0 } } =
      some g := hg
  have hw0 : body_within pool g.content_length
      { message with
        body := { buf := some (apr_palloc pool (g.content_length + 1)), length := 0 } } :=
    ⟨_, rfl, apr_palloc_length _ _, Nat.zero_le _, fun _ _ => rfl⟩
  obtain ⟨first, hf, hg1, hw1⟩ := mrcp_message_body_read_within pool _ stream g hg0 hw0 hs
  obtain ⟨outs, ho, hl, hall⟩ := mrcp_message_body_read_seq_within pool g streams first.2.1
    hg1 hw1 hss
  refine ⟨first, outs, ?_, ho, hl, ?_⟩
  · unfold mrcp_message_body_parse
    simp only [hp, if_true, hg, hn, ne_eq, not_false_eq_true, size_add_of_lt hsize]
    exact hf
  · intro r hr
    have hw : body_within pool g.content_length r.2.1 := by
      rcases List.mem_cons.1 hr with h | h
      · subst h
        exact hw1
      · exact hall r h
    obtain ⟨b, h1, h2, h3, h4⟩ := hw
    have hget : ∀ i, r.2.1.body.length ≤ i → i ≤ g.content_length →
        b[i]? = some (pool i) := by
      intro i hi hle
      rw [h4 i hi]
      exact apr_palloc_get pool (g.content_length + 1) i (by omega)
    exact ⟨b, h1, h2, h3, hget, hget _ h3 (Nat.le_refl _)⟩

/-- Instance of C18: a body of five bytes read from a stream of two bytes and then from a
stream that holds more than the three bytes still missing, into an allocation
that holds the byte `200 + i` at index `i`. -/
theorem mrcp_message_body_bound_witness :
    ∃ first outs,
      mrcp_message_body_parse (fun i => 200 + i) ex_message_headers ex_stream_he =
        some first ∧
      mrcp_message_body_read_seq first.2.1 [ex_stream_llo, ex_stream_lo] = some outs ∧
      outs.length = 2 ∧
      ∀ r ∈ first :: outs, ∃ body_buf,
        r.2.1.body.buf = some body_buf ∧
        body_buf.length = 5 + 1 ∧
        r.2.1.body.length ≤ 5 ∧
        (∀ i, r.2.1.body.length ≤ i → i ≤ 5 → body_buf[i]? = some (200 + i)) ∧
        body_buf[5]? = some (200 + 5) :=
  mrcp_message_body_bound (fun i => 200 + i) ex_message_headers
    { content_length := 5, content_type := [] }
    ex_stream_he [ex_stream_llo, ex_stream_lo] (by decide) rfl (by decide) (by decide)
    (by decide) (by decide)

/-! ## Resource name injection -/

theorem mrcp_message_body_read_result (message : mrcp_message_t) (stream : apt_text_stream_t)
    (r : mrcp_stream_result_e × mrcp_message_t × apt_text_stream_t)
    (h : mrcp_message_body_read message stream = some r) :
    r.1 ≠ MRCP_STREAM_MESSAGE_INVALID := by
  unfold mrcp_message_body_read at h
  split at h
  · cases h
    simp
  · split at h
    · simp only at h
      split at h
      · cases h
      · cases h
        simp only
        split <;> simp
    · cases h

theorem mrcp_message_body_parse_result (pool : Nat → Nat) (message : mrcp_message_t)
    (stream : apt_text_stream_t)
    (r : mrcp_stream_result_e × mrcp_message_t × apt_text_stream_t)
    (h : mrcp_message_body_parse pool message stream = some r) :
    r.1 ≠ MRCP_STREAM_MESSAGE_INVALID := by
  unfold mrcp_message_body_parse at h
  split at h
  · split at h
    · split at h
      · exact mrcp_message_body_read_result _ _ _ h
      · cases h
        simp
    · cases h
      simp
  · cases h
    simp

/-- A run of the parser that returns Invalid is a new parse that failed at the start
line, at the resource lookup or at the header, and leaves the message as that stage
left it. -/
theorem mrcp_parser_run_invalid_stage (E : mrcp_externals_t) (parser : mrcp_parser_t)
    (stream : apt_text_stream_t) (parser1 : mrcp_parser_t) (stream1 : apt_text_stream_t)
    (hrun : mrcp_parser_run E parser stream =
      some (MRCP_STREAM_MESSAGE_INVALID, parser1, stream1)) :
    ((parser_stage_start_line E parser stream).1 = false ∧
        parser1.message = some (parser_stage_start_line E parser stream).2.1) ∨
      ((parser_stage_start_line E parser stream).1 = true ∧
        (parser_stage_resourcify E parser stream).1 = false ∧
        parser1.message = some (parser_stage_resourcify E parser stream).2.1) ∨
      ((parser_stage_start_line E parser stream).1 = true ∧
        (parser_stage_resourcify E parser stream).1 = true ∧
        (parser_stage_header E parser stream).1 = false ∧
        parser1.message = some (parser_stage_header E parser stream).2.1) := by
  have hbreak : ∀ (p : mrcp_parser_t) (m : mrcp_message_t) (s : apt_text_stream_t),
      p.message = some m →
      mrcp_parser_break p s = (MRCP_STREAM_MESSAGE_INVALID, parser1, stream1) →
      parser1.message = some m := by
    intro p m s hm hb
    unfold mrcp_parser_break at hb
    split at hb
    · simp at hb
    · simp only [Prod.mk.injEq, true_and] at hb
      obtain ⟨hb1, _⟩ := hb
      subst hb1
      exact hm
  have hnew : mrcp_parser_run_new E parser stream =
      some (MRCP_STREAM_MESSAGE_INVALID, parser1, stream1) →
      ((parser_stage_start_line E parser stream).1 = false ∧
          parser1.message = some (parser_stage_start_line E parser stream).2.1) ∨
        ((parser_stage_start_line E parser stream).1 = true ∧
          (parser_stage_resourcify E parser stream).1 = false ∧
          parser1.message = some (parser_stage_resourcify E parser stream).2.1) ∨
        ((parser_stage_start_line E parser stream).1 = true ∧
          (parser_stage_resourcify E parser stream).1 = true ∧
          (parser_stage_header E parser stream).1 = false ∧
          parser1.message = some (parser_stage_header E parser stream).2.1) := by
    intro h
    rw [mrcp_parser_run_new_eq] at h
    by_cases h1 : (parser_stage_start_line E parser stream).1 = false
    · rw [if_pos h1] at h
      exact Or.inl ⟨h1, hbreak _ _ _ rfl (Option.some.inj h)⟩
    · rw [if_neg h1] at h
      have h1t : (parser_stage_start_line E parser stream).1 = true := by simpa using h1
      by_cases h2 : (parser_stage_resourcify E parser stream).1 = false
      · rw [if_pos h2] at h
        simp only [Option.some.injEq, Prod.mk.injEq, true_and] at h
        obtain ⟨hp1, _⟩ := h
        subst hp1
        exact Or.inr (Or.inl ⟨h1t, h2, rfl⟩)
      · rw [if_neg h2] at h
        have h2t : (parser_stage_resourcify E parser stream).1 = true := by simpa using h2
        by_cases h3 : (parser_stage_header E parser stream).1 = false
        · rw [if_pos h3] at h
          exact Or.inr (Or.inr ⟨h1t, h2t, h3, hbreak _ _ _ rfl (Option.some.inj h)⟩)
        · rw [if_neg h3] at h
          split at h
          · cases h
          · rename_i r hr
            simp only [Option.some.injEq, Prod.mk.injEq] at h
            exact absurd h.1 (mrcp_message_body_parse_result _ _ _ _ hr)
  unfold mrcp_parser_run at hrun
  split at hrun
  · split at hrun
    · split at hrun
      · cases hrun
      · rename_i r hr
        simp only [Option.some.injEq, Prod.mk.injEq] at hrun
        exact absurd hrun.1 (mrcp_message_body_read_result _ _ _ hr)
    · exact hnew hrun
  · exact hnew hrun

/-- One iteration of the loop of the walk, given the outcome of its run. -/
theorem mrcp_stream_walk_loop_step {σ : Type} (E : mrcp_externals_t)
    (handler : mrcp_message_handler_f σ) (fuel : Nat) (parser : mrcp_parser_t)
    (stream : apt_text_stream_t) (obj : σ)
    (r : mrcp_stream_result_e × mrcp_parser_t × apt_text_stream_t)
    (hrun : mrcp_parser_run E parser stream = some r) :
    mrcp_stream_walk_loop E handler (fuel + 1) parser stream obj =
      if (handler obj r.2.1.message r.1).1 = false then
        walk_outcome.returned (none, r.2.1, r.2.2, (handler obj r.2.1.message r.1).2)
      else if apt_text_is_eos r.2.2 = false ∧ r.1 ≠ MRCP_STREAM_MESSAGE_TRUNCATED then
        mrcp_stream_walk_loop E handler fuel r.2.1 r.2.2 (handler obj r.2.1.message r.1).2
      else
        walk_outcome.returned (some r.1, r.2.1, r.2.2, (handler obj r.2.1.message r.1).2) := by
  rw [mrcp_stream_walk_loop]
  simp only [hrun]

/-- C11, runs the claim fails on: a request that names an unknown resource, and input
whose first byte is no protocol version.  Both runs return Invalid and
`mrcp_parser_message_get` still returns a message; the walk over the first input
calls the handler with Invalid and a message. -/
theorem mrcp_parser_run_invalid_keeps_message :
    ∃ parser1 stream1 parser2 stream2 out,
      mrcp_parser_run ex_externals mrcp_parser_create (ex_stream_in ex_wire_bogus) =
        some (MRCP_STREAM_MESSAGE_INVALID, parser1, stream1) ∧
      mrcp_parser_message_get parser1 ≠ none ∧
      mrcp_parser_run ex_externals mrcp_parser_create (ex_stream_in ex_wire_malformed) =
        some (MRCP_STREAM_MESSAGE_INVALID, parser2, stream2) ∧
      mrcp_parser_message_get parser2 ≠ none ∧
      mrcp_stream_walk ex_externals ex_handler_seen 2 mrcp_parser_create
          (ex_stream_in ex_wire_bogus) [] = walk_outcome.returned out ∧
      out.2.2.2 =
        [(MRCP_STREAM_MESSAGE_TRUNCATED, false), (MRCP_STREAM_MESSAGE_INVALID, true)] :=
  ⟨_, _, _, _, _, rfl, by decide, rfl, by decide, rfl, rfl⟩

/-- C11, amended. Invalid keeps the message: whenever `mrcp_parser_run` returns Invalid,
the run is a new parse that failed at the start line, at the resource lookup or at
the header, and the parser's current message is the partially parsed message of
this run, as the failing stage left it; `mrcp_parser_message_get` returns it, and
the iteration of `mrcp_stream_walk` that makes this run calls the handler with
that message and Invalid. -/
theorem mrcp_parser_run_invalid_message {σ : Type} (E : mrcp_externals_t)
    (parser : mrcp_parser_t) (stream : apt_text_stream_t) (parser1 : mrcp_parser_t)
    (stream1 : apt_text_stream_t)
    (hrun : mrcp_parser_run E parser stream =
      some (MRCP_STREAM_MESSAGE_INVALID, parser1, stream1)) :
    ∃ message, mrcp_parser_message_get parser1 = some message ∧
      (((parser_stage_start_line E parser stream).1 = false ∧
          message = (parser_stage_start_line E parser stream).2.1) ∨
        ((parser_stage_start_line E parser stream).1 = true ∧
          (parser_stage_resourcify E parser stream).1 = false ∧
          message = (parser_stage_resourcify E parser stream).2.1) ∨
        ((parser_stage_start_line E parser stream).1 = true ∧
          (parser_stage_resourcify E parser stream).1 = true ∧
          (parser_stage_header E parser stream).1 = false ∧
          message = (parser_stage_header E parser stream).2.1)) ∧
      ∀ (handler : mrcp_message_handler_f σ) (obj : σ) (fuel : Nat),
        mrcp_stream_walk_loop E handler (fuel + 1) parser stream obj =
          if (handler obj (some message) MRCP_STREAM_MESSAGE_INVALID).1 = false then
            walk_outcome.returned (none, parser1, stream1,
              (handler obj (some message) MRCP_STREAM_MESSAGE_INVALID).2)
          else if apt_text_is_eos stream1 = false then
            mrcp_stream_walk_loop E handler fuel parser1 stream1
              (handler obj (some message) MRCP_STREAM_MESSAGE_INVALID).2
          else
            walk_outcome.returned (some MRCP_STREAM_MESSAGE_INVALID, parser1, stream1,
              (handler obj (some message) MRCP_STREAM_MESSAGE_INVALID).2) := by
  have hwalk : ∀ message, parser1.message = some message →
      ∀ (handler : mrcp_message_handler_f σ) (obj : σ) (fuel : Nat),
        mrcp_stream_walk_loop E handler (fuel + 1) parser stream obj =
          if (handler obj (some message) MRCP_STREAM_MESSAGE_INVALID).1 = false then
            walk_outcome.returned (none, parser1, stream1,
              (handler obj (some message) MRCP_STREAM_MESSAGE_INVALID).2)
          else if apt_text_is_eos stream1 = false then
            mrcp_stream_walk_loop E handler fuel parser1 stream1
              (handler obj (some message) MRCP_STREAM_MESSAGE_INVALID).2
          else
            walk_outcome.returned (some MRCP_STREAM_MESSAGE_INVALID, parser1, stream1,
              (handler obj (some message) MRCP_STREAM_MESSAGE_INVALID).2) := by
    intro message hm handler obj fuel
    rw [mrcp_stream_walk_loop_step E handler fuel parser stream obj _ hrun]
    simp [hm]
  rcases mrcp_parser_run_invalid_stage E parser stream parser1 stream1 hrun with
    ⟨h1, hm⟩ | ⟨h1, h2, hm⟩ | ⟨h1, h2, h3, hm⟩
  · exact ⟨_, hm, Or.inl ⟨h1, rfl⟩, hwalk _ hm⟩
  · exact ⟨_, hm, Or.inr (Or.inl ⟨h1, h2, rfl⟩), hwalk _ hm⟩
  · exact ⟨_, hm, Or.inr (Or.inr ⟨h1, h2, h3, rfl⟩), hwalk _ hm⟩

/-- Instance of C11 amended: the request that names an unknown resource; the message
kept is the one the failed resource lookup left, with the start line and the channel
identifier parsed and no header. -/
theorem mrcp_parser_run_invalid_message_witness :
    ∃ parser1 stream1 message,
      mrcp_parser_run ex_externals mrcp_parser_create (ex_stream_in ex_wire_bogus) =
        some (MRCP_STREAM_MESSAGE_INVALID, parser1, stream1) ∧
      mrcp_parser_message_get parser1 = some message ∧
      (((parser_stage_start_line ex_externals mrcp_parser_create
            (ex_stream_in ex_wire_bogus)).1 = false ∧
          message = (parser_stage_start_line ex_externals mrcp_parser_create
            (ex_stream_in ex_wire_bogus)).2.1) ∨
        ((parser_stage_start_line ex_externals mrcp_parser_create
            (ex_stream_in ex_wire_bogus)).1 = true ∧
          (parser_stage_resourcify ex_externals mrcp_parser_create
            (ex_stream_in ex_wire_bogus)).1 = false ∧
          message = (parser_stage_resourcify ex_externals mrcp_parser_create
            (ex_stream_in ex_wire_bogus)).2.1) ∨
        ((parser_stage_start_line ex_externals mrcp_parser_create
            (ex_stream_in ex_wire_bogus)).1 = true ∧
          (parser_stage_resourcify ex_externals mrcp_parser_create
            (ex_stream_in ex_wire_bogus)).1 = true ∧
          (parser_stage_header ex_externals mrcp_parser_create
            (ex_stream_in ex_wire_bogus)).1 = false ∧
          message = (parser_stage_header ex_externals mrcp_parser_create
            (ex_stream_in ex_wire_bogus)).2.1)) ∧
      ∀ (handler : mrcp_message_handler_f (List (mrcp_stream_result_e × Bool)))
        (obj : List (mrcp_stream_result_e × Bool)) (fuel : Nat),
        mrcp_stream_walk_loop ex_externals handler (fuel + 1) mrcp_parser_create
            (ex_stream_in ex_wire_bogus) obj =
          if (handler obj (some message) MRCP_STREAM_MESSAGE_INVALID).1 = false then
            walk_outcome.returned (none, parser1, stream1,
              (handler obj (some message) MRCP_STREAM_MESSAGE_INVALID).2)
          else if apt_text_is_eos stream1 = false then
            mrcp_stream_walk_loop ex_externals handler fuel parser1 stream1
              (handler obj (some message) MRCP_STREAM_MESSAGE_INVALID).2
          else
            walk_outcome.returned (some MRCP_STREAM_MESSAGE_INVALID, parser1, stream1,
              (handler obj (some message) MRCP_STREAM_MESSAGE_INVALID).2) := by
  obtain ⟨message, h1, h2, h3⟩ := mrcp_parser_run_invalid_message
    (σ := List (mrcp_stream_result_e × Bool)) ex_externals mrcp_parser_create
    (ex_stream_in ex_wire_bogus) _ _ rfl
  exact ⟨_, _, message, rfl, h1, h2, h3⟩

/-! ## Handler sequence of the walk -/

theorem mrcp_parser_run_seq_cons (E : mrcp_externals_t) (parser : mrcp_parser_t)
    (stream : apt_text_stream_t) (caller : apt_text_stream_t → apt_text_stream_t)
    (callers : List (apt_text_stream_t → apt_text_stream_t))
    (r : mrcp_stream_result_e × mrcp_parser_t × apt_text_stream_t)
    (rs : List (mrcp_stream_result_e × mrcp_parser_t × apt_text_stream_t))
    (h : mrcp_parser_run_seq E parser stream (caller :: callers) = some (r :: rs)) :
    mrcp_parser_run E parser (caller stream) = some r ∧
      mrcp_parser_run_seq E r.2.1 r.2.2 callers = some rs := by
  simp only [mrcp_parser_run_seq] at h
  cases hr : mrcp_parser_run E parser (caller stream) with
  | none => simp [hr] at h
  | some r0 =>
    simp only [hr] at h
    cases hrs : mrcp_parser_run_seq E r0.2.1 r0.2.2 callers with
    | none => simp [hrs] at h
    | some rs0 =>
      simp only [hrs, Option.some.injEq, List.cons.injEq] at h
      obtain ⟨h1, h2⟩ := h
      subst h1 h2
      exact ⟨rfl, hrs⟩

/-- The loop of the walk after the runs it goes on from: it stands at the last run with the
handler object that one call per earlier run, in order, has left. -/
theorem mrcp_stream_walk_loop_runs {σ : Type} (E : mrcp_externals_t)
    (handler : mrcp_message_handler_f σ)
    (init : List (mrcp_stream_result_e × mrcp_parser_t × apt_text_stream_t)) :
    ∀ (parser : mrcp_parser_t) (stream : apt_text_stream_t) (obj : σ)
      (last : mrcp_stream_result_e × mrcp_parser_t × apt_text_stream_t) (fuel : Nat),
      mrcp_parser_run_seq E parser stream (List.replicate (init.length + 1) id) =
        some (init ++ [last]) →
      walk_continues handler obj init →
      mrcp_stream_walk_loop E handler (init.length + 1 + fuel) parser stream obj =
        if (handler (handler_state handler obj init) last.2.1.message last.1).1 = false then
          walk_outcome.returned (none, last.2.1, last.2.2,
            (handler (handler_state handler obj init) last.2.1.message last.1).2)
        else if apt_text_is_eos last.2.2 = false ∧
            last.1 ≠ MRCP_STREAM_MESSAGE_TRUNCATED then
          mrcp_stream_walk_loop E handler fuel last.2.1 last.2.2
            (handler (handler_state handler obj init) last.2.1.message last.1).2
        else
          walk_outcome.returned (some last.1, last.2.1, last.2.2,
            (handler (handler_state handler obj init) last.2.1.message last.1).2) := by
  induction init with
  | nil =>
    intro parser stream obj last fuel hruns _
    have h := mrcp_parser_run_seq_cons E parser stream id [] last [] hruns
    simp only [List.length_nil, Nat.zero_add]
    rw [Nat.add_comm 1 fuel, mrcp_stream_walk_loop_step E handler fuel parser stream obj last h.1]
    rfl
  | cons r init ih =>
    intro parser stream obj last fuel hruns hcont
    have h := mrcp_parser_run_seq_cons E parser stream id
      (List.replicate (init.length + 1) id) r (init ++ [last]) hruns
    obtain ⟨c1, c2, c3, c4⟩ := hcont
    have e : (r :: init).length + 1 + fuel = (init.length + 1 + fuel) + 1 := by
      simp only [List.length_cons]
      omega
    rw [e, mrcp_stream_walk_loop_step E handler _ parser stream obj r h.1]
    simp only [c1, c2, c3, Bool.true_eq_false, if_false, ne_eq, not_false_eq_true, and_self,
      if_true]
    rw [ih r.2.1 r.2.2 _ last fuel h.2 c4]
    rfl

/-- C13. Walker handler sequence and cancellation: let successive `mrcp_parser_run` calls,
each on the stream as the previous one left it, have the outcomes `init ++ [last]`,
such that after every run of `init` the handler (called with the parser's message
and the result of that run, on the object the earlier calls left) returns true,
the stream is not at its end and the result is not Truncated, and that after
`last` the handler returns false or the stream is at its end or the result is
Truncated.  Then `mrcp_stream_walk` makes exactly these runs: it returns what the
handler returned for `last`, with the parser as the last run left it and the
handler object after one call per run, in order; when the handler returned false,
the stream is as the last run left it. -/
theorem mrcp_stream_walk_handler_sequence {σ : Type} (E : mrcp_externals_t)
    (handler : mrcp_message_handler_f σ) (parser : mrcp_parser_t)
    (stream : apt_text_stream_t) (obj : σ)
    (init : List (mrcp_stream_result_e × mrcp_parser_t × apt_text_stream_t))
    (last : mrcp_stream_result_e × mrcp_parser_t × apt_text_stream_t) (fuel : Nat)
    (hruns : mrcp_parser_run_seq E parser stream (List.replicate (init.length + 1) id) =
      some (init ++ [last]))
    (hcont : walk_continues handler obj init)
    (hstop : (handler (handler_state handler obj init) last.2.1.message last.1).1 = false ∨
      apt_text_is_eos last.2.2 = true ∨ last.1 = MRCP_STREAM_MESSAGE_TRUNCATED)
    (hfuel : init.length + 1 ≤ fuel) :
    ∃ stream1,
      mrcp_stream_walk E handler fuel parser stream obj =
        walk_outcome.returned
          ((handler (handler_state handler obj init) last.2.1.message last.1).1,
            last.2.1, stream1,
            (handler (handler_state handler obj init) last.2.1.message last.1).2) ∧
      ((handler (handler_state handler obj init) last.2.1.message last.1).1 = false →
        stream1 = last.2.2) := by
  obtain ⟨extra, rfl⟩ : ∃ extra, fuel = init.length + 1 + extra :=
    ⟨fuel - (init.length + 1), by omega⟩
  have hloop := mrcp_stream_walk_loop_runs E handler init parser stream obj last extra hruns
    hcont
  unfold mrcp_stream_walk
  rw [hloop]
  by_cases hh : (handler (handler_state handler obj init) last.2.1.message last.1).1 = false
  · simp only [hh, if_true]
    exact ⟨_, rfl, fun _ => rfl⟩
  · have hh1 : (handler (handler_state handler obj init) last.2.1.message last.1).1 = true := by
      simpa using hh
    have hstop1 : ¬ (apt_text_is_eos last.2.2 = false ∧
        last.1 ≠ MRCP_STREAM_MESSAGE_TRUNCATED) := by
      rcases hstop with h | h | h
      · exact absurd h hh
      · simp [h]
      · simp [h]
    simp only [hh1, Bool.true_eq_false, if_false, hstop1]
    by_cases ht : last.1 = MRCP_STREAM_MESSAGE_TRUNCATED
    · by_cases hs : (E.apt_text_stream_scroll last.2.2).1 = true
      · simp only [ht, if_true, hs]
        exact ⟨_, rfl, by simp⟩
      · simp only [ht, if_true, hs, if_false]
        exact ⟨_, rfl, by simp⟩
    · simp only [ht, if_false]
      exact ⟨_, rfl, by simp⟩

/-- Instance of C13: the walk over a stream that holds two messages makes two runs and
calls the handler once after each. -/
theorem mrcp_stream_walk_handler_sequence_witness :
    ∃ stream1,
      mrcp_stream_walk ex_externals ex_handler 2 mrcp_parser_create ex_walk_stream [] =
        walk_outcome.returned
          (true, ex_walk_second.2.1, stream1,
            [MRCP_STREAM_MESSAGE_COMPLETE, MRCP_STREAM_MESSAGE_COMPLETE]) ∧
      (true = false → stream1 = ex_walk_second.2.2) :=
  mrcp_stream_walk_handler_sequence ex_externals ex_handler mrcp_parser_create
    ex_walk_stream [] [ex_walk_first] ex_walk_second 2 rfl
    ⟨rfl, rfl, by decide, trivial⟩ (Or.inr (Or.inl rfl)) (by decide)

/-! ## Final stream position of the walk -/

/-- C14. Walker final stream position: whenever `mrcp_stream_walk` returns true, its loop
ended with the result of the last run and the stream as that run left it; if that
result is not Truncated the walk returns this stream with the cursor at the start
of the buffer; if it is Truncated and the scroll succeeded, the stream as the
scroll left it; if it is Truncated and the scroll failed, the stream the scroll
left with the cursor at the start of the buffer. -/
theorem mrcp_stream_walk_final_stream {σ : Type} (E : mrcp_externals_t)
    (handler : mrcp_message_handler_f σ) (fuel : Nat) (parser : mrcp_parser_t)
    (stream : apt_text_stream_t) (obj : σ) (parser1 : mrcp_parser_t)
    (stream1 : apt_text_stream_t) (obj1 : σ)
    (hwalk : mrcp_stream_walk E handler fuel parser stream obj =
      walk_outcome.returned (true, parser1, stream1, obj1)) :
    ∃ result stream0,
      mrcp_stream_walk_loop E handler fuel parser stream obj =
        walk_outcome.returned (some result, parser1, stream0, obj1) ∧
      (result ≠ MRCP_STREAM_MESSAGE_TRUNCATED → stream1 = { stream0 with pos := some 0 }) ∧
      (result = MRCP_STREAM_MESSAGE_TRUNCATED → (E.apt_text_stream_scroll stream0).1 = true →
        stream1 = (E.apt_text_stream_scroll stream0).2) ∧
      (result = MRCP_STREAM_MESSAGE_TRUNCATED → (E.apt_text_stream_scroll stream0).1 = false →
        stream1 = { (E.apt_text_stream_scroll stream0).2 with pos := some 0 } ∧
          stream1.pos = some 0) := by
  unfold mrcp_stream_walk at hwalk
  cases hl : mrcp_stream_walk_loop E handler fuel parser stream obj with
  | out_of_fuel => simp [hl] at hwalk
  | undefined => simp [hl] at hwalk
  | returned v =>
    obtain ⟨o, p, s, ob⟩ := v
    cases o with
    | none => simp [hl] at hwalk
    | some result =>
      simp only [hl] at hwalk
      by_cases ht : result = MRCP_STREAM_MESSAGE_TRUNCATED
      · by_cases hs : (E.apt_text_stream_scroll s).1 = true
        · simp only [ht, if_true, hs, walk_outcome.returned.injEq, Prod.mk.injEq, true_and]
            at hwalk
          obtain ⟨rfl, rfl, rfl⟩ := hwalk
          exact ⟨result, s, rfl, fun h => absurd ht h, fun _ _ => rfl,
            fun _ h => absurd hs (by simp [h])⟩
        · simp only [ht, if_true, hs, if_false, walk_outcome.returned.injEq, Prod.mk.injEq,
            true_and] at hwalk
          obtain ⟨rfl, rfl, rfl⟩ := hwalk
          exact ⟨result, s, rfl, fun h => absurd ht h, fun _ h => absurd h hs,
            fun _ _ => ⟨rfl, rfl⟩⟩
      · simp only [ht, if_false, walk_outcome.returned.injEq, Prod.mk.injEq, true_and] at hwalk
        obtain ⟨rfl, rfl, rfl⟩ := hwalk
        exact ⟨result, s, rfl, fun _ => rfl, fun h => absurd h ht, fun h => absurd h ht⟩

/-- Instance of C14: the second message of the stream lacks its header; the second
run is Truncated with the cursor back at the start of that message, and the
scroll moves the five bytes left to the front. -/
theorem mrcp_stream_walk_final_stream_witness :
    ∃ result stream0,
      mrcp_stream_walk_loop ex_externals ex_handler 3 mrcp_parser_create
          ex_walk_stream_cut [] =
        walk_outcome.returned (some result, ex_walk_cut.2.1, stream0, ex_walk_cut.2.2.2) ∧
      (result ≠ MRCP_STREAM_MESSAGE_TRUNCATED →
        ex_walk_cut.2.2.1 = { stream0 with pos := some 0 }) ∧
      (result = MRCP_STREAM_MESSAGE_TRUNCATED →
        (ex_externals.apt_text_stream_scroll stream0).1 = true →
        ex_walk_cut.2.2.1 = (ex_externals.apt_text_stream_scroll stream0).2) ∧
      (result = MRCP_STREAM_MESSAGE_TRUNCATED →
        (ex_externals.apt_text_stream_scroll stream0).1 = false →
        ex_walk_cut.2.2.1 =
            { (ex_externals.apt_text_stream_scroll stream0).2 with pos := some 0 } ∧
          ex_walk_cut.2.2.1.pos = some 0) :=
  mrcp_stream_walk_final_stream ex_externals ex_handler 3 mrcp_parser_create
    ex_walk_stream_cut [] ex_walk_cut.2.1 ex_walk_cut.2.2.1 ex_walk_cut.2.2.2 (by rfl)

/-! ## Termination of the walk -/

/-- The loop of the walk ends within as many iterations as the stream has bytes left
(one, if it has none), when every run returns, keeps the cursor within the buffer
and, unless it returns Truncated, moves the cursor forward. -/
theorem mrcp_stream_walk_loop_ends {σ : Type} (E : mrcp_externals_t)
    (handler : mrcp_message_handler_f σ)
    (inv : mrcp_parser_t → apt_text_stream_t → Prop)
    (hstep : ∀ p s, inv p s → ∃ r offset offset1,
      s.pos = some offset ∧ mrcp_parser_run E p s = some r ∧
      r.2.2.pos = some offset1 ∧ offset1 ≤ r.2.2.length ∧ r.2.2.length = s.length ∧
      (r.1 ≠ MRCP_STREAM_MESSAGE_TRUNCATED → offset < offset1) ∧
      (apt_text_is_eos r.2.2 = false → r.1 ≠ MRCP_STREAM_MESSAGE_TRUNCATED →
        inv r.2.1 r.2.2)) :
    ∀ (fuel : Nat) (parser : mrcp_parser_t) (stream : apt_text_stream_t) (obj : σ)
      (offset : Nat), inv parser stream → stream.pos = some offset →
      max 1 (stream.length - offset) ≤ fuel →
      ∃ out, mrcp_stream_walk_loop E handler fuel parser stream obj =
        walk_outcome.returned out := by
  intro fuel
  induction fuel with
  | zero =>
    intro parser stream obj offset _ _ hf
    omega
  | succ fuel ih =>
    intro parser stream obj offset hi hpos hf
    obtain ⟨r, o, o1, h1, h2, h3, h4, h5, h6, h7⟩ := hstep parser stream hi
    rw [hpos] at h1
    cases h1
    rw [mrcp_stream_walk_loop_step E handler fuel parser stream obj r h2]
    by_cases hh : (handler obj r.2.1.message r.1).1 = false
    · simp only [hh, if_true]
      exact ⟨_, rfl⟩
    · by_cases hc : apt_text_is_eos r.2.2 = false ∧ r.1 ≠ MRCP_STREAM_MESSAGE_TRUNCATED
      · simp only [hh, if_false, hc, ne_eq, not_false_eq_true, and_self, if_true]
        have hne : o1 ≠ r.2.2.length := by
          have := hc.1
          unfold apt_text_is_eos at this
          rw [h3] at this
          simpa using this
        have hlt := h6 hc.2
        exact ih r.2.1 r.2.2 _ o1 (h7 hc.1 hc.2) h3 (by omega)
      · simp only [hh, if_false, hc]
        exact ⟨_, rfl⟩

/-- The walk returns when its loop does. -/
theorem mrcp_stream_walk_of_loop {σ : Type} (E : mrcp_externals_t)
    (handler : mrcp_message_handler_f σ) (fuel : Nat) (parser : mrcp_parser_t)
    (stream : apt_text_stream_t) (obj : σ)
    (v : Option mrcp_stream_result_e × mrcp_parser_t × apt_text_stream_t × σ)
    (h : mrcp_stream_walk_loop E handler fuel parser stream obj = walk_outcome.returned v) :
    ∃ out, mrcp_stream_walk E handler fuel parser stream obj = walk_outcome.returned out := by
  unfold mrcp_stream_walk
  rw [h]
  obtain ⟨o, p, s, ob⟩ := v
  cases o with
  | none => exact ⟨_, rfl⟩
  | some result =>
    simp only
    split
    · split
      · exact ⟨_, rfl⟩
      · exact ⟨_, rfl⟩
    · exact ⟨_, rfl⟩

/-- An iteration whose run returns Invalid with the stream as it was, not at its end, and
whose handler call returns true, is followed by a run on the same stream. -/
theorem mrcp_stream_walk_loop_retry {σ : Type} (E : mrcp_externals_t)
    (handler : mrcp_message_handler_f σ) (fuel : Nat) (parser : mrcp_parser_t)
    (stream : apt_text_stream_t) (obj : σ) (parser1 : mrcp_parser_t)
    (hrun : mrcp_parser_run E parser stream =
      some (MRCP_STREAM_MESSAGE_INVALID, parser1, stream))
    (hhandler : (handler obj parser1.message MRCP_STREAM_MESSAGE_INVALID).1 = true)
    (heos : apt_text_is_eos stream = false) :
    mrcp_stream_walk_loop E handler (fuel + 1) parser stream obj =
      mrcp_stream_walk_loop E handler fuel parser1 stream
        (handler obj parser1.message MRCP_STREAM_MESSAGE_INVALID).2 := by
  rw [mrcp_stream_walk_loop_step E handler fuel parser stream obj _ hrun]
  simp [hhandler, heos]

/-- C19. Walker termination: from a set of states (parser and stream) that the runs do not
leave while the walk goes on, and in which every `mrcp_parser_run` call returns,
keeps the cursor within the buffer and the extent of the text, and strictly
advances the cursor unless it returns Truncated, `mrcp_stream_walk` returns for
every handler after at most as many parser runs as the stream has bytes left at
entry (one, if it has none).  Without the progress: an iteration whose run
returns Invalid with the stream as it was, not at its end, the handler returning
true, is followed by a run on the same stream at the same position. -/
theorem mrcp_stream_walk_termination {σ : Type} (E : mrcp_externals_t)
    (handler : mrcp_message_handler_f σ) :
    (∀ (inv : mrcp_parser_t → apt_text_stream_t → Prop) (parser : mrcp_parser_t)
        (stream : apt_text_stream_t) (obj : σ) (offset : Nat),
        (∀ p s, inv p s → ∃ r offset offset1,
          s.pos = some offset ∧ mrcp_parser_run E p s = some r ∧
          r.2.2.pos = some offset1 ∧ offset1 ≤ r.2.2.length ∧ r.2.2.length = s.length ∧
          (r.1 ≠ MRCP_STREAM_MESSAGE_TRUNCATED → offset < offset1) ∧
          (apt_text_is_eos r.2.2 = false → r.1 ≠ MRCP_STREAM_MESSAGE_TRUNCATED →
            inv r.2.1 r.2.2)) →
        inv parser stream → stream.pos = some offset →
        ∃ out, mrcp_stream_walk E handler (max 1 (stream.length - offset)) parser stream obj =
          walk_outcome.returned out) ∧
      (∀ (fuel : Nat) (parser : mrcp_parser_t) (stream : apt_text_stream_t) (obj : σ)
        (parser1 : mrcp_parser_t),
        mrcp_parser_run E parser stream =
          some (MRCP_STREAM_MESSAGE_INVALID, parser1, stream) →
        (handler obj parser1.message MRCP_STREAM_MESSAGE_INVALID).1 = true →
        apt_text_is_eos stream = false →
        mrcp_stream_walk_loop E handler (fuel + 1) parser stream obj =
          mrcp_stream_walk_loop E handler fuel parser1 stream
            (handler obj parser1.message MRCP_STREAM_MESSAGE_INVALID).2) := by
  refine ⟨?_, ?_⟩
  · intro inv parser stream obj offset hstep hi hpos
    obtain ⟨v, hv⟩ := mrcp_stream_walk_loop_ends E handler inv hstep _ parser stream obj
      offset hi hpos (Nat.le_refl _)
    exact mrcp_stream_walk_of_loop E handler _ parser stream obj v hv
  · intro fuel parser stream obj parser1 hrun hh he
    exact mrcp_stream_walk_loop_retry E handler fuel parser stream obj parser1 hrun hh he

/-- Instance of C19: the walk over `ex_walk_stream`, 22 bytes that hold two messages,
returns within 22 runs; and with a start-line tokenizer that fails without moving
the cursor, the walk over a stream of one byte is still in its loop after any
number of runs. -/
theorem mrcp_stream_walk_termination_witness :
    (∃ out, mrcp_stream_walk ex_externals ex_handler 22 mrcp_parser_create ex_walk_stream [] =
        walk_outcome.returned out) ∧
      ∀ fuel, mrcp_stream_walk_loop ex_externals_stuck ex_handler_all fuel mrcp_parser_create
        (ex_stream_in [0]) [] = walk_outcome.out_of_fuel := by
  refine ⟨?_, ?_⟩
  · refine (mrcp_stream_walk_termination ex_externals ex_handler).1 ex_walk_states
      mrcp_parser_create ex_walk_stream [] 0 ?_ (Or.inl ⟨rfl, rfl⟩) rfl
    intro p s hps
    rcases hps with ⟨hp, hs⟩ | ⟨hp, hs⟩
    · subst hp hs
      exact ⟨ex_walk_first, 0, 11, rfl, rfl, rfl, by decide, rfl, fun _ => by decide,
        fun _ _ => Or.inr ⟨rfl, rfl⟩⟩
    · subst hp hs
      exact ⟨ex_walk_second, 11, 22, rfl, rfl, rfl, by decide, rfl, fun _ => by decide,
        fun h _ => absurd h (by decide)⟩
  · have key : ∀ (fuel : Nat) (parser : mrcp_parser_t) (obj : List mrcp_stream_result_e),
        parser.message = none ∨ parser.result ≠ MRCP_STREAM_MESSAGE_TRUNCATED →
        mrcp_stream_walk_loop ex_externals_stuck ex_handler_all fuel parser
          (ex_stream_in [0]) obj = walk_outcome.out_of_fuel := by
      intro fuel
      induction fuel with
      | zero =>
        intro parser obj _
        rfl
      | succ fuel ih =>
        intro parser obj hnew
        have hrun : mrcp_parser_run ex_externals_stuck parser (ex_stream_in [0]) =
            some (MRCP_STREAM_MESSAGE_INVALID,
              { parser with
                result := MRCP_STREAM_MESSAGE_INVALID
                message := some (parser_new_message parser)
                pos := some 0 },
              ex_stream_in [0]) := by
          rw [mrcp_parser_run_of_new _ _ _ hnew, mrcp_parser_run_new_eq]
          rfl
        rw [(mrcp_stream_walk_termination ex_externals_stuck ex_handler_all).2 fuel parser
          (ex_stream_in [0]) obj _ hrun rfl (by decide)]
        exact ih _ _ (Or.inr (show MRCP_STREAM_MESSAGE_INVALID ≠ MRCP_STREAM_MESSAGE_TRUNCATED by
          decide))
    exact fun fuel => key fuel mrcp_parser_create [] (Or.inl rfl)

end Mrcp



